import Mathlib

/-
Verification development for the gpsr repository (phase-space reconstruction).

Shallow embedding conventions:
* torch tensors of float values are modelled over ℚ; a scalar tensor carries a
  Boolean `attached` flag recording whether it is part of the autograd graph
  (`.data` / `.detach()` clears the flag).
* external collaborators (bmadx lattices, screens, the neural generator, the
  Adam optimizer) are opaque functions supplied as parameters, following the
  interface contracts in the source.
* filesystem paths are modelled as lists of components; `os.path.join d n`
  becomes the two-component list `[d, n]`.
-/

namespace GPSR

/-! ### Scalar tensors with an autograd-attachment flag -/

/-- A scalar float tensor: its value and whether it is attached to the
autograd graph (`requires_grad` history).  `.data` produces the same value
with the flag cleared. -/
structure Tmodel where
  val : ℚ
  attached : Bool
deriving DecidableEq

/-- A batched float tensor (flattened values) with an attachment flag. -/
structure BatchTensor where
  vals : List ℚ
  attached : Bool
deriving DecidableEq

/-! ### `lagrange/image_fitting_ensemble_example.py`: `CustomLoss` -/

/-- State of `CustomLoss` (src/lagrange/image_fitting_ensemble_example.py):
the registered parameter `lambda_` and the running `loss_record` list. -/
structure CustomLoss where
  lambda_ : Tmodel
  loss_record : List (Tmodel × Tmodel × Tmodel × Tmodel)
deriving DecidableEq

/-- `kl_div(target, input).sum()` from `utils.kl_div` (external): an
elementwise divergence `d` applied across the paired pixels, then summed.
The result is attached whenever either operand is attached. -/
def kl_sum (d : ℚ → ℚ → ℚ) (target pred : BatchTensor) : Tmodel :=
  { val := (List.zipWith d target.vals pred.vals).sum,
    attached := target.attached || pred.attached }

/-- `CustomLoss.forward(input_data, target)` (lines 37-59 of the example):
`image_loss = kl_div(target, input_data[0]).sum()`,
`entropy_loss = -input_data[1]`,
`unconstrained_loss = entropy_loss + lambda_ * image_loss`,
and the record gains `[image_loss, entropy_loss, input_data[2], lambda_.data]`.
Only `lambda_` is stored through `.data` (detached). -/
def CustomLoss.forward (c : CustomLoss) (d : ℚ → ℚ → ℚ) (pred : BatchTensor)
    (entropy aux : Tmodel) (target : BatchTensor) : CustomLoss × Tmodel :=
  let image_loss := kl_sum d target pred
  let entropy_loss : Tmodel := { val := -entropy.val, attached := entropy.attached }
  let unconstrained : Tmodel :=
    { val := entropy_loss.val + c.lambda_.val * image_loss.val,
      attached := entropy_loss.attached || (c.lambda_.attached || image_loss.attached) }
  ({ c with loss_record :=
      c.loss_record ++ [(image_loss, entropy_loss, aux, { val := c.lambda_.val, attached := false })] },
   unconstrained)

/-- An entry of the loss record is fully detached when none of its four
components is attached to the autograd graph. -/
def entryDetached (e : Tmodel × Tmodel × Tmodel × Tmodel) : Prop :=
  e.1.attached = false ∧ e.2.1.attached = false ∧
  e.2.2.1.attached = false ∧ e.2.2.2.attached = false

/-! ### `phase_space_reconstruction/virtual/scans.py` -/

/-- `torch.meshgrid(ks, vs, gs, indexing='ij')` followed by
`torch.stack(..., dim=-1).reshape((-1, 3))` (`run_3d_scan`, scans.py
lines 153-154): the row-major flattened Cartesian product of the three
sweep axes, `k` outermost, `g` innermost. -/
def cart3 (ks vs gs : List ℚ) : List (ℚ × ℚ × ℚ) :=
  ks.flatMap (fun k => vs.flatMap (fun v => gs.map (fun g => (k, v, g))))

/-- `ImageDataset3D(params, images)` from `phase_space_reconstruction.modeling`:
a settings batch paired with the image batch formed under it. -/
structure ImageDataset3D (S I : Type) where
  params : List S
  images : List I

/-- `run_3d_scan` (scans.py lines 108-173): each row of the flattened
Cartesian product is injected into the scanned lattice elements
(`K1 := row[0]`, `VOLTAGE := row[1]`, `G := row[2]`), the beam is tracked
through the lattice and histogrammed at the screen.  `track k v g` is the
opaque propagation through `lattice.copy()` under those settings and
`screen` the opaque histogram operator; the batched tensor semantics of the
source (one beam broadcast across every configuration row) is rendered as a
map over configuration rows. -/
def run_3d_scan {B1 B2 I : Type} (track : ℚ → ℚ → ℚ → B1 → B2) (screen : B2 → I)
    (beam : B1) (ks vs gs : List ℚ) : ImageDataset3D (ℚ × ℚ × ℚ) I :=
  let params := cart3 ks vs gs
  { params := params,
    images := params.map (fun p => screen (track p.1 p.2.1 p.2.2 beam)) }

/-- The row-major flattening of a `meshgrid` over `(ks, vs)` with `k`
outermost: the per-dipole-slice configuration rows of
`run_3d_scan_2screens`. -/
def pairsKV (ks vs : List ℚ) : List (ℚ × ℚ) :=
  ks.flatMap (fun k => vs.map (fun v => (k, v)))

/-- The dataset built by the dual-screen scan: per flat index one pair of
configurations (dipole off, dipole on) stacked along `dim=1`, and one pair
of image lists (`n_imgs_per_param` copies each, stacked along `dim=2`). -/
structure Dataset2Screens (S I : Type) where
  params : List (S × S)
  images : List (List I × List I)

/-- `run_3d_scan_2screens` (scans.py lines 265-336):
`params = meshgrid(gs, ks, vs, indexing='ij')`; slice `params[0]` (dipole
value `gs[0]`, dipole off) is injected into one lattice copy and imaged by
`screen0`, slice `params[1]` (dipole value `gs[1]`, dipole on) into another
copy imaged by `screen1`; the per-screen results are stacked pairwise along
an extra axis (`dim=1`) and each image is duplicated `nImgs` times
(`dim=2`).  Rows of a slice are `(g, k, v)` and the source injects
`G := row[0]`, `K1 := row[1]`, `VOLTAGE := row[2]`.  At least two dipole
values are required (`params[1]` raises `IndexError` otherwise), hence the
`Option` result. -/
def run_3d_scan_2screens {B1 B2 I : Type} (track : ℚ → ℚ → ℚ → B1 → B2)
    (screen0 screen1 : B2 → I) (beam : B1) (ks vs gs : List ℚ) (nImgs : Nat) :
    Option (Dataset2Screens (ℚ × ℚ × ℚ) I) :=
  match gs with
  | g0 :: g1 :: _ =>
    let params0 := (pairsKV ks vs).map (fun kv => (g0, kv.1, kv.2))
    let params1 := (pairsKV ks vs).map (fun kv => (g1, kv.1, kv.2))
    let images0 := params0.map (fun p => screen0 (track p.2.1 p.2.2 p.1 beam))
    let images1 := params1.map (fun p => screen1 (track p.2.1 p.2.2 p.1 beam))
    let images_stack := images0.zip images1
    let params_stack := params0.zip params1
    let copied := images_stack.map
      (fun pr => (List.replicate nImgs pr.1, List.replicate nImgs pr.2))
    some { params := params_stack, images := copied }
  | _ => none

/-! ### `phase_space_reconstruction/train.py`: training drivers -/

/-- A float value produced by the numeric backend: finite (modelled over ℚ)
or non-finite (NaN/Inf); non-finiteness propagates through arithmetic. -/
inductive FloatVal
  | fin : ℚ → FloatVal
  | nonfinite : FloatVal
deriving DecidableEq

def FloatVal.neg : FloatVal → FloatVal
  | FloatVal.fin q => FloatVal.fin (-q)
  | FloatVal.nonfinite => FloatVal.nonfinite

def FloatVal.add : FloatVal → FloatVal → FloatVal
  | FloatVal.fin a, FloatVal.fin b => FloatVal.fin (a + b)
  | _, _ => FloatVal.nonfinite

def FloatVal.mul : FloatVal → FloatVal → FloatVal
  | FloatVal.fin a, FloatVal.fin b => FloatVal.fin (a * b)
  | _, _ => FloatVal.nonfinite

/-- Modelled from the spec: `MENTLoss` is imported from
`phase_space_reconstruction.losses`, which is not under src/.  Per §4.3 of
the spec it holds the weighting coefficient λ (a fixed tensor here: the
drivers build it as `MENTLoss(torch.tensor(lambda_))`) and accumulates a
record of `(image_loss, entropy_loss, auxiliary, λ)` per evaluation. -/
structure MENTLoss where
  lambda_ : ℚ
  record : List (FloatVal × FloatVal × FloatVal × ℚ)
deriving DecidableEq

/-- Modelled from the spec: one evaluation of `MENTLoss` on the computed
image divergence, entropy estimate and auxiliary diagnostic: it returns
`-entropy + λ * image_loss` and appends to the record; λ itself is left
unchanged. -/
def MENTLoss.forward (m : MENTLoss) (image_loss entropy aux : FloatVal) :
    MENTLoss × FloatVal :=
  ({ m with record := m.record ++ [(image_loss, FloatVal.neg entropy, aux, m.lambda_)] },
   FloatVal.add (FloatVal.neg entropy) (FloatVal.mul (FloatVal.fin m.lambda_) image_loss))

/-- Observable events of a training run, tagged with the epoch index:
entering an epoch's pass over the dataloader, one optimizer step, or one
periodic snapshot. -/
inductive Event
  | pass (i : Nat)
  | step (i : Nat)
  | snap (i : Nat)
deriving DecidableEq

/-- Python exceptions the drivers can raise: `NameError` (printing a `loss`
variable never bound because the dataloader was empty), `TypeError`
(`i % None`), `ZeroDivisionError` (`i % 0`). -/
inductive RunError
  | nameError
  | typeError
  | zeroDivisionError
deriving DecidableEq

/-- The opaque differentiable collaborators of a training run.
`outFn` composes the reconstruction model's forward pass on one mini-batch
with the loss-side computation of (image divergence vs the batch targets,
entropy estimate, auxiliary diagnostic); `gradFn` is `loss.backward()` at
the current parameters; `optStep` is `optimizer.step()` on the optimizer's
internal state and the generator parameters (λ is not among the optimizer's
parameters: the drivers build `Adam(model.parameters())` only); `beamOf p n`
is `model.beam.forward().detach_clone()` for parameters `p` with the base
beam set to particle count `n`. -/
structure ModelEnv (P G O B Beam : Type) where
  outFn : P → B → FloatVal × FloatVal × FloatVal
  gradFn : P → B → G
  optStep : O → P → G → O × P
  beamOf : P → Nat → Beam

/-- The mutable state of a training run: generator parameters, optimizer
state, the loss object, the Python variable `loss` (unbound before the
first mini-batch), the count of optimizer steps taken, the event trace, the
files written (`path components × contents`), and the pending exception, if
any (an exception aborts the remainder of the run). -/
structure TrainState (P O Beam : Type) where
  params : P
  opt : O
  lossState : MENTLoss
  lastLoss : Option FloatVal
  steps : Nat
  trace : List Event
  writes : List (List String × Beam)
  err : Option RunError

variable {P G O B Beam : Type}

/-- State at the start of a run (train.py: model/optimizer/loss
construction). -/
def initState (lambda0 : ℚ) (p0 : P) (o0 : O) : TrainState P O Beam :=
  { params := p0, opt := o0, lossState := { lambda_ := lambda0, record := [] },
    lastLoss := none, steps := 0, trace := [], writes := [], err := none }

/-- The joint evolution of optimizer state and parameters over one
mini-batch: `loss.backward(); optimizer.step()`. -/
def stepPO (env : ModelEnv P G O B Beam) (op : O × P) (b : B) : O × P :=
  env.optStep op.1 op.2 (env.gradFn op.2 b)

/-- The body of the inner mini-batch loop, shared line-for-line by every
driver (train.py lines 89-95, 179-185, 272-278, 390-396, 500-506, 629-635):
`optimizer.zero_grad(); output = model(...); loss = loss_fn(output, target);
loss.backward(); optimizer.step()`.  The optimizer step is applied
unconditionally — there is no retry and no guard on the loss value.  A
state already carrying an exception is left untouched (the loop never
reaches it). -/
def batchBody (env : ModelEnv P G O B Beam) (i : Nat) (s : TrainState P O Beam)
    (b : B) : TrainState P O Beam :=
  if s.err.isSome then s
  else
    let out := env.outFn s.params b
    let fw := MENTLoss.forward s.lossState out.1 out.2.1 out.2.2
    let op := stepPO env (s.opt, s.params) b
    { params := op.2, opt := op.1, lossState := fw.1, lastLoss := some fw.2,
      steps := s.steps + 1, trace := s.trace ++ [Event.step i],
      writes := s.writes, err := none }

/-- Entering epoch `i`'s pass over the dataloader. -/
def pushPass (i : Nat) (s : TrainState P O Beam) : TrainState P O Beam :=
  if s.err.isSome then s else { s with trace := s.trace ++ [Event.pass i] }

/-- `if i % 100 == 0: print(i, loss)` — raises `NameError` when `loss` was
never bound (empty dataloader). -/
def printCheck (i : Nat) (s : TrainState P O Beam) : TrainState P O Beam :=
  if s.err.isSome then s
  else if i % 100 = 0 then
    match s.lastLoss with
    | none => { s with err := some RunError.nameError }
    | some _ => s
  else s

/-- The part of an epoch common to all drivers: the pass over the
dataloader followed by the periodic progress print. -/
def coreEpoch (env : ModelEnv P G O B Beam) (batches : List B) (i : Nat)
    (s : TrainState P O Beam) : TrainState P O Beam :=
  printCheck i (batches.foldl (batchBody env i) (pushPass i s))

/-- The dump file name `dist_{i}.pt` (train.py line 411). -/
def distName (i : Nat) : String := "dist_" ++ Nat.repr i ++ ".pt"

/-- The dump file name `tmp_beam{i}.pt` (train.py line 644). -/
def tmpBeamName (i : Nat) : String := "tmp_beam" ++ Nat.repr i ++ ".pt"

/-- `os.path.join` on a possibly empty directory, paths being component
lists. -/
def join2 (d n : String) : List String := if d = "" then [n] else [d, n]

/-- train_3d_scan lines 401-412: when the epoch index hits
`distribution_dump_frequency` and a save directory is configured, deep-copy
the model, re-sample its beam at `distribution_dump_n_particles` and save
it under `save_dir/dist_{i}.pt`.  `i % 0` raises `ZeroDivisionError`. -/
def dumpCheck (env : ModelEnv P G O B Beam) (save_dir : Option String)
    (dumpFreq dumpN : Nat) (i : Nat) (s : TrainState P O Beam) :
    TrainState P O Beam :=
  if s.err.isSome then s
  else if dumpFreq = 0 then { s with err := some RunError.zeroDivisionError }
  else if i % dumpFreq = 0 then
    match save_dir with
    | some d =>
      { s with
        trace := s.trace ++ [Event.snap i],
        writes := s.writes ++ [([d, distName i], env.beamOf s.params dumpN)] }
    | none => s
  else s

/-- train_3d_scan_2screens lines 640-645: every `saving_interval` epochs,
deep-copy the model, extract its beam (at the run's own particle count) and
save it as `tmp_beam{i}.pt` under `save_dir`.  `saving_interval` defaults
to `None`, making `i % saving_interval` a `TypeError`; the value `0` raises
`ZeroDivisionError`. -/
def saveCheck2s (env : ModelEnv P G O B Beam) (save_dir : String)
    (interval : Option Nat) (nPart : Nat) (i : Nat) (s : TrainState P O Beam) :
    TrainState P O Beam :=
  if s.err.isSome then s
  else
    match interval with
    | none => { s with err := some RunError.typeError }
    | some k =>
      if k = 0 then { s with err := some RunError.zeroDivisionError }
      else if i % k = 0 then
        { s with
          trace := s.trace ++ [Event.snap i],
          writes := s.writes ++
            [(join2 save_dir (tmpBeamName i), env.beamOf s.params nPart)] }
      else s

/-- The epoch loop shared by `train_1d_scan`, `train_1d_scan_sext`,
`train_1d_scan_multi_gpu` and `train_3d_scan_parallel_gpus` (their loop
bodies are identical): `for i in range(n)` over `coreEpoch`. -/
def loop1 (env : ModelEnv P G O B Beam) (batches : List B) (lambda0 : ℚ)
    (p0 : P) (o0 : O) (n : Nat) : TrainState P O Beam :=
  (List.range n).foldl (fun s i => coreEpoch env batches i s)
    (initState lambda0 p0 o0)

/-- The epoch loop of `train_3d_scan` with the periodic distribution dump
appended to each epoch; the driver runs it for `n_epochs + 1` iterations. -/
def loop3 (env : ModelEnv P G O B Beam) (batches : List B)
    (save_dir : Option String) (dumpFreq dumpN : Nat) (lambda0 : ℚ)
    (p0 : P) (o0 : O) (n : Nat) : TrainState P O Beam :=
  (List.range n).foldl
    (fun s i => dumpCheck env save_dir dumpFreq dumpN i (coreEpoch env batches i s))
    (initState lambda0 p0 o0)

/-- The epoch loop of `train_3d_scan_2screens` with the periodic
`tmp_beam{i}.pt` save appended to each epoch. -/
def loop2s (env : ModelEnv P G O B Beam) (batches : List B)
    (save_dir : String) (interval : Option Nat) (nPart : Nat) (lambda0 : ℚ)
    (p0 : P) (o0 : O) (n : Nat) : TrainState P O Beam :=
  (List.range n).foldl
    (fun s i => saveCheck2s env save_dir interval nPart i (coreEpoch env batches i s))
    (initState lambda0 p0 o0)

/-- `train_1d_scan` (train.py lines 19-107): the epoch loop, then the
terminal phase (move the model off the device, extract the final beam,
`torch.save` it to the configured `save_as` path when one is given).  An
uncaught exception propagates instead: no beam is returned. -/
def train_1d_scan (env : ModelEnv P G O B Beam) (batches : List B)
    (n_epochs : Nat) (save_as : Option String) (lambda0 : ℚ) (p0 : P) (o0 : O)
    (nPart : Nat) : TrainState P O Beam × Option Beam :=
  let sN := loop1 env batches lambda0 p0 o0 n_epochs
  if sN.err.isSome then (sN, none)
  else
    let beam := env.beamOf sN.params nPart
    ({ sN with writes := sN.writes ++
        (match save_as with | some pth => [([pth], beam)] | none => []) },
     some beam)

/-- `train_1d_scan_sext` (train.py lines 110-197): identical epoch loop and
terminal phase to `train_1d_scan` (only the model class differs, which is
abstracted into `env`). -/
def train_1d_scan_sext (env : ModelEnv P G O B Beam) (batches : List B)
    (n_epochs : Nat) (save_as : Option String) (lambda0 : ℚ) (p0 : P) (o0 : O)
    (nPart : Nat) : TrainState P O Beam × Option Beam :=
  train_1d_scan env batches n_epochs save_as lambda0 p0 o0 nPart

/-- `train_1d_scan_multi_gpu` (train.py lines 199-290): identical epoch
loop structure (the `DataParallel` replication and `loss.mean()` are
absorbed into `env`). -/
def train_1d_scan_multi_gpu (env : ModelEnv P G O B Beam) (batches : List B)
    (n_epochs : Nat) (save_as : Option String) (lambda0 : ℚ) (p0 : P) (o0 : O)
    (nPart : Nat) : TrainState P O Beam × Option Beam :=
  train_1d_scan env batches n_epochs save_as lambda0 p0 o0 nPart

/-- `train_3d_scan_parallel_gpus` (train.py lines 423-518): identical epoch
loop structure to `train_1d_scan` with a `range(n_epochs)` loop and a
terminal `save_as` write. -/
def train_3d_scan_parallel_gpus (env : ModelEnv P G O B Beam) (batches : List B)
    (n_epochs : Nat) (save_as : Option String) (lambda0 : ℚ) (p0 : P) (o0 : O)
    (nPart : Nat) : TrainState P O Beam × Option Beam :=
  train_1d_scan env batches n_epochs save_as lambda0 p0 o0 nPart

/-- `train_3d_scan` (train.py lines 294-421): `for i in range(n_epochs + 1)`
with the periodic distribution dump; the terminal phase writes the final
beam to the fixed working-directory path `"3d_scan_result.pt"` (not joined
to `save_dir`) whenever `save_dir` is configured, and returns the beam
together with a deep copy of the trained model. -/
def train_3d_scan (env : ModelEnv P G O B Beam) (batches : List B)
    (n_epochs : Nat) (save_dir : Option String) (dumpFreq dumpN : Nat)
    (lambda0 : ℚ) (p0 : P) (o0 : O) (nPart : Nat) :
    TrainState P O Beam × Option (Beam × P) :=
  let sN := loop3 env batches save_dir dumpFreq dumpN lambda0 p0 o0 (n_epochs + 1)
  if sN.err.isSome then (sN, none)
  else
    let beam := env.beamOf sN.params nPart
    ({ sN with writes := sN.writes ++
        (match save_dir with
         | some _ => [(["3d_scan_result.pt"], beam)]
         | none => []) },
     some (beam, sN.params))

/-- `train_3d_scan_2screens` (train.py lines 524-654): `for i in
range(n_epochs)` with the periodic `tmp_beam{i}.pt` save; the terminal
phase joins `save_as` to `save_dir`. -/
def train_3d_scan_2screens (env : ModelEnv P G O B Beam) (batches : List B)
    (n_epochs : Nat) (save_as : Option String) (save_dir : String)
    (interval : Option Nat) (lambda0 : ℚ) (p0 : P) (o0 : O) (nPart : Nat) :
    TrainState P O Beam × Option Beam :=
  let sN := loop2s env batches save_dir interval nPart lambda0 p0 o0 n_epochs
  if sN.err.isSome then (sN, none)
  else
    let beam := env.beamOf sN.params nPart
    ({ sN with writes := sN.writes ++
        (match save_as with | some pth => [(join2 save_dir pth, beam)] | none => []) },
     some beam)

/-- Optimizer state and parameters after `n` complete epochs over the
dataloader. -/
def poIter (env : ModelEnv P G O B Beam) (batches : List B) :
    Nat → O × P → O × P
  | 0, op => op
  | n + 1, op => batches.foldl (stepPO env) (poIter env batches n op)

/-- The snapshot events contributed by epoch `i` of `train_3d_scan`. -/
def snapTrace3 (save_dir : Option String) (f i : Nat) : List Event :=
  match save_dir with
  | some _ => if i % f = 0 then [Event.snap i] else []
  | none => []

/-- The snapshot events contributed by epoch `i` of
`train_3d_scan_2screens` under interval `k`. -/
def snapTrace2s (k i : Nat) : List Event :=
  if i % k = 0 then [Event.snap i] else []

/-- The trace of `n` epochs: each epoch contributes a pass event, `L`
optimizer-step events and its snapshot events, in that order. -/
def traceUpTo (L : Nat) (extra : Nat → List Event) : Nat → List Event
  | 0 => []
  | n + 1 => traceUpTo L extra n ++ [Event.pass n]
      ++ List.replicate L (Event.step n) ++ extra n

/-- The writes accumulated over `n` epochs, given each epoch's entries. -/
def writesUpTo (entry : Nat → List (List String × Beam)) :
    Nat → List (List String × Beam)
  | 0 => []
  | n + 1 => writesUpTo entry n ++ entry n

/-- The dump entry of epoch `i` of `train_3d_scan`: present when the epoch
index hits the dump frequency and a save directory is configured; its
content is the beam of the parameters reached after epochs `0..i`,
re-sampled at the dump particle count `dumpN`. -/
def dumpEntry3 (env : ModelEnv P G O B Beam) (batches : List B)
    (save_dir : Option String) (f dumpN : Nat) (o0 : O) (p0 : P) (i : Nat) :
    List (List String × Beam) :=
  match save_dir with
  | some d =>
    if i % f = 0 then
      [([d, distName i], env.beamOf (poIter env batches (i + 1) (o0, p0)).2 dumpN)]
    else []
  | none => []

/-- The periodic-save entry of epoch `i` of `train_3d_scan_2screens`. -/
def dumpEntry2s (env : ModelEnv P G O B Beam) (batches : List B)
    (save_dir : String) (k nPart : Nat) (o0 : O) (p0 : P) (i : Nat) :
    List (List String × Beam) :=
  if i % k = 0 then
    [(join2 save_dir (tmpBeamName i),
      env.beamOf (poIter env batches (i + 1) (o0, p0)).2 nPart)]
  else []

/-- The number of dataloader passes recorded in a trace. -/
def passCount (t : List Event) : Nat :=
  t.countP (fun e => match e with | Event.pass _ => true | _ => false)

/-- A trivial concrete environment over `Unit`, used to evaluate the
drivers at concrete inputs. -/
def envU : ModelEnv Unit Unit Unit Unit Unit :=
  { outFn := fun _ _ => (FloatVal.fin 0, FloatVal.fin 0, FloatVal.fin 0),
    gradFn := fun _ _ => (),
    optStep := fun _ _ _ => ((), ()),
    beamOf := fun _ _ => () }

/-- A concrete environment over `Nat` parameters whose forward pass yields a
non-finite image loss and whose optimizer step visibly changes the
parameters. -/
def envNF : ModelEnv Nat Unit Unit Unit Unit :=
  { outFn := fun _ _ => (FloatVal.nonfinite, FloatVal.fin 0, FloatVal.fin 0),
    gradFn := fun _ _ => (),
    optStep := fun _ p _ => ((), p + 1),
    beamOf := fun _ _ => () }

end GPSR

namespace GPSR

/-! ### Theorems about `CustomLoss` -/

/-- Claim C1: every evaluation of the loss on predicted batch `pred` and
measured batch `target` returns `-entropy + lambda_ * image_loss`, where
`image_loss` is the KL-style divergence between `target` and the predicted
images summed over the batch and `lambda_` is the loss object's weighting
coefficient. -/
theorem C1_loss_is_neg_entropy_plus_lambda_image_loss
    (c : CustomLoss) (d : ℚ → ℚ → ℚ) (pred : BatchTensor)
    (entropy aux : Tmodel) (target : BatchTensor) :
    (CustomLoss.forward c d pred entropy aux target).2.val =
      -entropy.val + c.lambda_.val * (List.zipWith d target.vals pred.vals).sum := by
  simp [CustomLoss.forward, kl_sum]

/-- Claim C4, counterexample: at a concrete evaluation the single appended
record entry has its `image_loss` and `entropy_loss` components still
attached to the gradient graph, so the claim that every stored entry is
detached is false.  (Only the `lambda_` component is stored via `.data`.) -/
theorem C4_counterexample_record_entry_not_detached :
    (CustomLoss.forward (CustomLoss.mk (Tmodel.mk 100 true) [])
        (fun a b => a - b) (BatchTensor.mk [1] true)
        (Tmodel.mk 2 true) (Tmodel.mk 3 false) (BatchTensor.mk [4] false)).1.loss_record =
      [(Tmodel.mk 3 true, Tmodel.mk (-2) true, Tmodel.mk 3 false, Tmodel.mk 100 false)] ∧
    ¬ entryDetached (Tmodel.mk 3 true, Tmodel.mk (-2) true, Tmodel.mk 3 false, Tmodel.mk 100 false) := by
  constructor
  · simp [CustomLoss.forward, kl_sum]
    norm_num
  · intro h
    exact absurd h.1 (by decide)

/-- Claim C4, amended: every evaluation appends exactly one entry
`(image_loss, entropy_loss, aux, lambda_)` to the record (so the record is
append-only and never truncated), the `lambda_` component is stored detached
via `.data` while the image and entropy components keep the attachment of
their inputs, and the stored record has no influence on the returned loss
(the returned value is the same for any prior record contents). -/
theorem C4_amended_record_append
    (c : CustomLoss) (d : ℚ → ℚ → ℚ) (pred : BatchTensor)
    (entropy aux : Tmodel) (target : BatchTensor) :
    (CustomLoss.forward c d pred entropy aux target).1.loss_record =
      c.loss_record ++
        [(kl_sum d target pred,
          Tmodel.mk (-entropy.val) entropy.attached, aux,
          Tmodel.mk c.lambda_.val false)] ∧
    (∀ r : List (Tmodel × Tmodel × Tmodel × Tmodel),
      (CustomLoss.forward { c with loss_record := r } d pred entropy aux target).2 =
        (CustomLoss.forward c d pred entropy aux target).2) := by
  constructor
  · simp [CustomLoss.forward]
  · intro r
    simp [CustomLoss.forward]

/-! ### Indexing lemmas for flattened Cartesian products -/

theorem length_flatMap_const {α β : Type} (f : α → List β) (m : Nat)
    (hm : ∀ a, (f a).length = m) (l : List α) :
    (l.flatMap f).length = l.length * m := by
  induction l with
  | nil => simp
  | cons a l ih => simp [List.flatMap_cons, hm, ih, Nat.succ_mul, Nat.add_comm]

theorem getElem?_flatMap_const {α β : Type} (f : α → List β) (m : Nat)
    (hm : ∀ a, (f a).length = m) (l : List α) :
    ∀ (a r : Nat), r < m →
      (l.flatMap f)[a * m + r]? = l[a]?.bind (fun x => (f x)[r]?) := by
  induction l with
  | nil => intro a r _; simp
  | cons x l ih =>
    intro a r hr
    cases a with
    | zero =>
      rw [List.flatMap_cons, Nat.zero_mul, Nat.zero_add, List.getElem?_append,
        if_pos (show r < (f x).length by rw [hm]; exact hr)]
      simp
    | succ a =>
      have h1 : (a + 1) * m + r = m + (a * m + r) := by
        rw [Nat.succ_mul]; omega
      rw [List.flatMap_cons, h1, List.getElem?_append_right (by rw [hm]; omega), hm]
      have h2 : m + (a * m + r) - m = a * m + r := by omega
      rw [h2, ih a r hr]
      simp

theorem getElem?_zip_pair {α β : Type} :
    ∀ (l1 : List α) (l2 : List β) (n : Nat),
      (l1.zip l2)[n]? = l1[n]?.bind (fun a => l2[n]?.map (fun b => (a, b))) := by
  intro l1
  induction l1 with
  | nil => intro l2 n; simp
  | cons a l1 ih =>
    intro l2 n
    cases l2 with
    | nil => simp [List.zip_nil_right]
    | cons b l2 =>
      cases n with
      | zero => simp [List.zip_cons_cons]
      | succ n => simpa [List.zip_cons_cons] using ih l2 n

theorem pairsKV_length (ks vs : List ℚ) :
    (pairsKV ks vs).length = ks.length * vs.length := by
  unfold pairsKV
  exact length_flatMap_const _ vs.length (fun k => by simp) ks

theorem cart3_length (ks vs gs : List ℚ) :
    (cart3 ks vs gs).length = ks.length * (vs.length * gs.length) := by
  unfold cart3
  exact length_flatMap_const _ (vs.length * gs.length)
    (fun k => length_flatMap_const _ gs.length (fun v => by simp) vs) ks

/-! ### Theorems about the virtual scans -/

/-- Claim C3: for every 3D scan over sweep axes `ks, vs, gs`, the settings
batch is the flattened Cartesian product of the three axes, the number of
produced images equals `ks.length * vs.length * gs.length`, every image at
flat index `j` is formed under the settings row at the same index, and the
row at flat index `a * (|vs| * |gs|) + b * |gs| + c` is exactly
`(ks[a], vs[b], gs[c])`. -/
theorem C3_cartesian_settings_indexing {B1 B2 I : Type}
    (track : ℚ → ℚ → ℚ → B1 → B2) (screen : B2 → I) (beam : B1)
    (ks vs gs : List ℚ) (a b c : Nat)
    (ha : a < ks.length) (hb : b < vs.length) (hc : c < gs.length) :
    (run_3d_scan track screen beam ks vs gs).params.length =
        ks.length * vs.length * gs.length ∧
    (run_3d_scan track screen beam ks vs gs).images.length =
        ks.length * vs.length * gs.length ∧
    (∀ j : Nat, (run_3d_scan track screen beam ks vs gs).images[j]? =
        ((run_3d_scan track screen beam ks vs gs).params[j]?).map
          (fun p => screen (track p.1 p.2.1 p.2.2 beam))) ∧
    (run_3d_scan track screen beam ks vs gs).params[a * (vs.length * gs.length)
        + b * gs.length + c]? =
      some (ks.get ⟨a, ha⟩, vs.get ⟨b, hb⟩, gs.get ⟨c, hc⟩) := by
  refine ⟨?_, ?_, ?_, ?_⟩
  · simp [run_3d_scan, cart3_length, Nat.mul_assoc]
  · simp [run_3d_scan, cart3_length, Nat.mul_assoc]
  · intro j
    simp [run_3d_scan, List.getElem?_map]
  · have hrc : b * gs.length + c < vs.length * gs.length := by
      calc b * gs.length + c < b * gs.length + gs.length := by omega
        _ = (b + 1) * gs.length := (Nat.succ_mul b gs.length).symm
        _ ≤ vs.length * gs.length := Nat.mul_le_mul_right gs.length hb
    have hidx : a * (vs.length * gs.length) + b * gs.length + c =
        a * (vs.length * gs.length) + (b * gs.length + c) := by omega
    show (cart3 ks vs gs)[a * (vs.length * gs.length) + b * gs.length + c]? = _
    rw [hidx]
    unfold cart3
    rw [getElem?_flatMap_const _ (vs.length * gs.length)
      (fun k => length_flatMap_const _ gs.length (fun v => by simp) vs) ks a _ hrc]
    rw [List.getElem?_eq_getElem ha, Option.some_bind]
    rw [getElem?_flatMap_const _ gs.length (fun v => by simp) vs b c hc]
    rw [List.getElem?_eq_getElem hb, Option.some_bind]
    rw [List.getElem?_map, List.getElem?_eq_getElem hc, Option.map_some']
    simp [List.get_eq_getElem]

/-- Witness for C3 at a concrete scan. -/
theorem C3_cartesian_settings_indexing_witness :
    (1 < 2 ∧ 0 < 2 ∧ 2 < 3) ∧
    ((run_3d_scan (fun k v g _ => k + 10 * v + 100 * g) (fun x => x) (0 : ℚ)
        [1, 2] [3, 4] [5, 6, 7]).params.length = 2 * 2 * 3 ∧
     (run_3d_scan (fun k v g _ => k + 10 * v + 100 * g) (fun x => x) (0 : ℚ)
        [1, 2] [3, 4] [5, 6, 7]).images.length = 2 * 2 * 3 ∧
     (∀ j : Nat, (run_3d_scan (fun k v g _ => k + 10 * v + 100 * g) (fun x => x) (0 : ℚ)
        [1, 2] [3, 4] [5, 6, 7]).images[j]? =
        ((run_3d_scan (fun k v g _ => k + 10 * v + 100 * g) (fun x => x) (0 : ℚ)
          [1, 2] [3, 4] [5, 6, 7]).params[j]?).map
          (fun p => (fun x => x) ((fun k v g (_ : ℚ) => k + 10 * v + 100 * g) p.1 p.2.1 p.2.2 0))) ∧
     (run_3d_scan (fun k v g _ => k + 10 * v + 100 * g) (fun x => x) (0 : ℚ)
        [1, 2] [3, 4] [5, 6, 7]).params[1 * (2 * 3) + 0 * 3 + 2]? =
       some (([1, 2] : List ℚ).get ⟨1, by decide⟩, ([3, 4] : List ℚ).get ⟨0, by decide⟩,
         ([5, 6, 7] : List ℚ).get ⟨2, by decide⟩)) :=
  ⟨⟨by decide, by decide, by decide⟩,
   C3_cartesian_settings_indexing (fun k v g _ => k + 10 * v + 100 * g) (fun x => x) (0 : ℚ)
     [1, 2] [3, 4] [5, 6, 7] 1 0 2 (by decide) (by decide) (by decide)⟩

/-- Claim C2: in the dual-screen virtual scan, every flat configuration index
`j` carries the pair of settings rows `((g0, k, v), (g1, k, v))` — `g0` the
dipole-off value, `g1` the dipole-on value — stacked along the extra axis,
and the image pair at the same index is `screen0` applied to the beam
propagated under the dipole-off settings paired with `screen1` applied to
the beam propagated under the dipole-on settings (each duplicated
`nImgs` times). -/
theorem C2_two_screen_routing {B1 B2 I : Type}
    (track : ℚ → ℚ → ℚ → B1 → B2) (screen0 screen1 : B2 → I) (beam : B1)
    (ks vs : List ℚ) (g0 g1 : ℚ) (rest : List ℚ) (nImgs : Nat)
    (j : Nat) (kv : ℚ × ℚ) (hj : (pairsKV ks vs)[j]? = some kv) :
    ∃ d, run_3d_scan_2screens track screen0 screen1 beam ks vs (g0 :: g1 :: rest) nImgs
        = some d ∧
      d.params.length = ks.length * vs.length ∧
      d.params[j]? = some ((g0, kv.1, kv.2), (g1, kv.1, kv.2)) ∧
      d.images[j]? = some
        (List.replicate nImgs (screen0 (track kv.1 kv.2 g0 beam)),
         List.replicate nImgs (screen1 (track kv.1 kv.2 g1 beam))) := by
  refine ⟨_, rfl, ?_, ?_, ?_⟩
  · simp [List.length_zip, pairsKV_length]
  · rw [getElem?_zip_pair, List.getElem?_map, List.getElem?_map, hj]
    rfl
  · rw [List.getElem?_map, getElem?_zip_pair, List.getElem?_map, List.getElem?_map,
      List.getElem?_map, List.getElem?_map, hj]
    rfl

/-- Witness for C2 at a concrete dual-screen scan. -/
theorem C2_two_screen_routing_witness :
    (pairsKV [1, 2] [3])[1]? = some ((2 : ℚ), (3 : ℚ)) ∧
    (∃ d, run_3d_scan_2screens (fun k v g _ => k + 2 * v + 4 * g)
        (fun x => x) (fun x => x + 1000) (0 : ℚ) [1, 2] [3] (0 :: 7 :: []) 2 = some d ∧
      d.params.length = 2 * 1 ∧
      d.params[1]? = some (((0 : ℚ), (2 : ℚ), (3 : ℚ)), ((7 : ℚ), (2 : ℚ), (3 : ℚ))) ∧
      d.images[1]? = some
        (List.replicate 2 ((fun x => x) ((fun k v g (_ : ℚ) => k + 2 * v + 4 * g) 2 3 0 0)),
         List.replicate 2 ((fun x => x + 1000) ((fun k v g (_ : ℚ) => k + 2 * v + 4 * g) 2 3 7 0)))) :=
  ⟨by decide,
   C2_two_screen_routing (fun k v g _ => k + 2 * v + 4 * g) (fun x => x)
     (fun x => x + 1000) (0 : ℚ) [1, 2] [3] 0 7 [] 2 1 (2, 3) (by decide)⟩

/-! ### Lemmas about the mini-batch loop -/

variable {P G O B Beam : Type}

theorem batchBody_absorb (env : ModelEnv P G O B Beam) (i : Nat)
    (s : TrainState P O Beam) (b : B) (h : s.err.isSome) :
    batchBody env i s b = s := by
  simp [batchBody, h]

theorem batchBody_eq (env : ModelEnv P G O B Beam) (i : Nat)
    (s : TrainState P O Beam) (b : B) (h : s.err = none) :
    batchBody env i s b =
      { params := (stepPO env (s.opt, s.params) b).2,
        opt := (stepPO env (s.opt, s.params) b).1,
        lossState := (MENTLoss.forward s.lossState (env.outFn s.params b).1
          (env.outFn s.params b).2.1 (env.outFn s.params b).2.2).1,
        lastLoss := some (MENTLoss.forward s.lossState (env.outFn s.params b).1
          (env.outFn s.params b).2.1 (env.outFn s.params b).2.2).2,
        steps := s.steps + 1, trace := s.trace ++ [Event.step i],
        writes := s.writes, err := none } := by
  simp [batchBody, h]

theorem foldB_absorb (env : ModelEnv P G O B Beam) (i : Nat) (l : List B)
    (s : TrainState P O Beam) (h : s.err.isSome) :
    l.foldl (batchBody env i) s = s := by
  induction l with
  | nil => rfl
  | cons b l ih => rw [List.foldl_cons, batchBody_absorb env i s b h]; exact ih

theorem foldB_err (env : ModelEnv P G O B Beam) (i : Nat) (l : List B) :
    ∀ s : TrainState P O Beam, s.err = none →
      (l.foldl (batchBody env i) s).err = none := by
  induction l with
  | nil => intro s h; exact h
  | cons b l ih =>
    intro s h
    rw [List.foldl_cons, batchBody_eq env i s b h]
    exact ih _ rfl

theorem foldB_steps (env : ModelEnv P G O B Beam) (i : Nat) (l : List B) :
    ∀ s : TrainState P O Beam, s.err = none →
      (l.foldl (batchBody env i) s).steps = s.steps + l.length := by
  induction l with
  | nil => intro s _; simp
  | cons b l ih =>
    intro s h
    rw [List.foldl_cons, batchBody_eq env i s b h, ih _ rfl]
    simp
    omega

theorem foldB_trace (env : ModelEnv P G O B Beam) (i : Nat) (l : List B) :
    ∀ s : TrainState P O Beam, s.err = none →
      (l.foldl (batchBody env i) s).trace =
        s.trace ++ List.replicate l.length (Event.step i) := by
  induction l with
  | nil => intro s _; simp
  | cons b l ih =>
    intro s h
    rw [List.foldl_cons, batchBody_eq env i s b h, ih _ rfl]
    simp [List.replicate_succ]

theorem foldB_writes (env : ModelEnv P G O B Beam) (i : Nat) (l : List B) :
    ∀ s : TrainState P O Beam, s.err = none →
      (l.foldl (batchBody env i) s).writes = s.writes := by
  induction l with
  | nil => intro s _; rfl
  | cons b l ih =>
    intro s h
    rw [List.foldl_cons, batchBody_eq env i s b h, ih _ rfl]

theorem batchBody_lambda (env : ModelEnv P G O B Beam) (i : Nat)
    (s : TrainState P O Beam) (b : B) :
    (batchBody env i s b).lossState.lambda_ = s.lossState.lambda_ := by
  cases hs : s.err with
  | none => rw [batchBody_eq env i s b hs]; simp [MENTLoss.forward]
  | some e => rw [batchBody_absorb env i s b (by simp [hs])]

theorem foldB_lambda (env : ModelEnv P G O B Beam) (i : Nat) (l : List B) :
    ∀ s : TrainState P O Beam,
      (l.foldl (batchBody env i) s).lossState.lambda_ = s.lossState.lambda_ := by
  induction l with
  | nil => intro s; rfl
  | cons b l ih =>
    intro s
    rw [List.foldl_cons, ih, batchBody_lambda]

theorem foldB_po (env : ModelEnv P G O B Beam) (i : Nat) (l : List B) :
    ∀ s : TrainState P O Beam, s.err = none →
      ((l.foldl (batchBody env i) s).opt, (l.foldl (batchBody env i) s).params)
        = l.foldl (stepPO env) (s.opt, s.params) := by
  induction l with
  | nil => intro s _; rfl
  | cons b l ih =>
    intro s h
    rw [List.foldl_cons, batchBody_eq env i s b h, List.foldl_cons]
    simpa using ih _ rfl

theorem foldB_lastLoss_keep (env : ModelEnv P G O B Beam) (i : Nat) (l : List B) :
    ∀ s : TrainState P O Beam, s.err = none → s.lastLoss.isSome →
      (l.foldl (batchBody env i) s).lastLoss.isSome := by
  induction l with
  | nil => intro s _ h2; exact h2
  | cons b l ih =>
    intro s h _
    rw [List.foldl_cons, batchBody_eq env i s b h]
    exact ih _ rfl (by simp)

theorem foldB_lastLoss (env : ModelEnv P G O B Beam) (i : Nat) (l : List B)
    (hl : l ≠ []) :
    ∀ s : TrainState P O Beam, s.err = none →
      (l.foldl (batchBody env i) s).lastLoss.isSome := by
  cases l with
  | nil => exact absurd rfl hl
  | cons b l =>
    intro s h
    rw [List.foldl_cons, batchBody_eq env i s b h]
    exact foldB_lastLoss_keep env i l _ rfl (by simp)

/-! ### Lemmas about one epoch -/

theorem pushPass_eq (i : Nat) (s : TrainState P O Beam) (h : s.err = none) :
    pushPass i s = { s with trace := s.trace ++ [Event.pass i] } := by
  simp [pushPass, h]

theorem pushPass_absorb (i : Nat) (s : TrainState P O Beam) (h : s.err.isSome) :
    pushPass i s = s := by
  simp [pushPass, h]

theorem printCheck_id (i : Nat) (s : TrainState P O Beam) (h : s.err = none)
    (h2 : s.lastLoss.isSome) : printCheck i s = s := by
  obtain ⟨q, hq⟩ := Option.isSome_iff_exists.mp h2
  by_cases hi : i % 100 = 0 <;> simp [printCheck, h, hi, hq]

theorem printCheck_absorb (i : Nat) (s : TrainState P O Beam)
    (h : s.err.isSome) : printCheck i s = s := by
  simp [printCheck, h]

theorem coreEpoch_eqn (env : ModelEnv P G O B Beam) (batches : List B) (i : Nat)
    (s : TrainState P O Beam) (h : s.err = none) (hb : batches ≠ []) :
    coreEpoch env batches i s =
      batches.foldl (batchBody env i) { s with trace := s.trace ++ [Event.pass i] } := by
  unfold coreEpoch
  rw [pushPass_eq i s h]
  exact printCheck_id i _ (foldB_err env i batches _ h)
    (foldB_lastLoss env i batches hb _ h)

theorem coreEpoch_absorb (env : ModelEnv P G O B Beam) (batches : List B)
    (i : Nat) (s : TrainState P O Beam) (h : s.err.isSome) :
    coreEpoch env batches i s = s := by
  unfold coreEpoch
  rw [pushPass_absorb i s h, foldB_absorb env i batches s h,
    printCheck_absorb i s h]

theorem coreEpoch_err (env : ModelEnv P G O B Beam) (batches : List B) (i : Nat)
    (s : TrainState P O Beam) (h : s.err = none) (hb : batches ≠ []) :
    (coreEpoch env batches i s).err = none := by
  rw [coreEpoch_eqn env batches i s h hb]
  exact foldB_err env i batches _ h

theorem coreEpoch_steps (env : ModelEnv P G O B Beam) (batches : List B)
    (i : Nat) (s : TrainState P O Beam) (h : s.err = none) (hb : batches ≠ []) :
    (coreEpoch env batches i s).steps = s.steps + batches.length := by
  rw [coreEpoch_eqn env batches i s h hb]
  exact foldB_steps env i batches _ h

theorem coreEpoch_trace (env : ModelEnv P G O B Beam) (batches : List B)
    (i : Nat) (s : TrainState P O Beam) (h : s.err = none) (hb : batches ≠ []) :
    (coreEpoch env batches i s).trace =
      s.trace ++ [Event.pass i] ++ List.replicate batches.length (Event.step i) := by
  rw [coreEpoch_eqn env batches i s h hb]
  exact foldB_trace env i batches _ h

theorem coreEpoch_writes (env : ModelEnv P G O B Beam) (batches : List B)
    (i : Nat) (s : TrainState P O Beam) (h : s.err = none) (hb : batches ≠ []) :
    (coreEpoch env batches i s).writes = s.writes := by
  rw [coreEpoch_eqn env batches i s h hb]
  exact foldB_writes env i batches _ h

theorem coreEpoch_po (env : ModelEnv P G O B Beam) (batches : List B) (i : Nat)
    (s : TrainState P O Beam) (h : s.err = none) (hb : batches ≠ []) :
    ((coreEpoch env batches i s).opt, (coreEpoch env batches i s).params)
      = batches.foldl (stepPO env) (s.opt, s.params) := by
  rw [coreEpoch_eqn env batches i s h hb]
  exact foldB_po env i batches _ h

theorem printCheck_lambda (i : Nat) (s : TrainState P O Beam) :
    (printCheck i s).lossState.lambda_ = s.lossState.lambda_ := by
  cases hL : s.lastLoss <;> by_cases h : s.err.isSome <;>
    by_cases hi : i % 100 = 0 <;> simp [printCheck, h, hi, hL]

theorem pushPass_lambda (i : Nat) (s : TrainState P O Beam) :
    (pushPass i s).lossState.lambda_ = s.lossState.lambda_ := by
  by_cases h : s.err.isSome <;> simp [pushPass, h]

theorem coreEpoch_lambda (env : ModelEnv P G O B Beam) (batches : List B)
    (i : Nat) (s : TrainState P O Beam) :
    (coreEpoch env batches i s).lossState.lambda_ = s.lossState.lambda_ := by
  unfold coreEpoch
  rw [printCheck_lambda, foldB_lambda, pushPass_lambda]

/-! ### Lemmas about the periodic-snapshot steps -/

theorem dumpCheck_absorb (env : ModelEnv P G O B Beam) (sd : Option String)
    (f dN i : Nat) (s : TrainState P O Beam) (h : s.err.isSome) :
    dumpCheck env sd f dN i s = s := by
  simp [dumpCheck, h]

theorem dumpCheck_err (env : ModelEnv P G O B Beam) (sd : Option String)
    (f dN i : Nat) (s : TrainState P O Beam) (h : s.err = none) (hf : f ≠ 0) :
    (dumpCheck env sd f dN i s).err = none := by
  cases sd <;> by_cases hi : i % f = 0 <;> simp [dumpCheck, h, hf, hi]

theorem dumpCheck_po (env : ModelEnv P G O B Beam) (sd : Option String)
    (f dN i : Nat) (s : TrainState P O Beam) :
    (dumpCheck env sd f dN i s).opt = s.opt ∧
    (dumpCheck env sd f dN i s).params = s.params := by
  by_cases h : s.err.isSome <;> cases sd <;> by_cases hf : f = 0 <;>
    by_cases hi : i % f = 0 <;> simp [dumpCheck, h, hf, hi]

theorem dumpCheck_steps (env : ModelEnv P G O B Beam) (sd : Option String)
    (f dN i : Nat) (s : TrainState P O Beam) :
    (dumpCheck env sd f dN i s).steps = s.steps := by
  by_cases h : s.err.isSome <;> cases sd <;> by_cases hf : f = 0 <;>
    by_cases hi : i % f = 0 <;> simp [dumpCheck, h, hf, hi]

theorem dumpCheck_lambda (env : ModelEnv P G O B Beam) (sd : Option String)
    (f dN i : Nat) (s : TrainState P O Beam) :
    (dumpCheck env sd f dN i s).lossState.lambda_ = s.lossState.lambda_ := by
  by_cases h : s.err.isSome <;> cases sd <;> by_cases hf : f = 0 <;>
    by_cases hi : i % f = 0 <;> simp [dumpCheck, h, hf, hi]

theorem dumpCheck_trace (env : ModelEnv P G O B Beam) (sd : Option String)
    (f dN i : Nat) (s : TrainState P O Beam) (h : s.err = none) (hf : f ≠ 0) :
    (dumpCheck env sd f dN i s).trace = s.trace ++ snapTrace3 sd f i := by
  cases sd <;> by_cases hi : i % f = 0 <;>
    simp [dumpCheck, snapTrace3, h, hf, hi]

theorem dumpCheck_writes (env : ModelEnv P G O B Beam) (sd : Option String)
    (f dN i : Nat) (s : TrainState P O Beam) (h : s.err = none) (hf : f ≠ 0) :
    (dumpCheck env sd f dN i s).writes = s.writes ++
      (match sd with
       | some d =>
         if i % f = 0 then [([d, distName i], env.beamOf s.params dN)] else []
       | none => []) := by
  cases sd <;> by_cases hi : i % f = 0 <;> simp [dumpCheck, h, hf, hi]

theorem saveCheck2s_absorb (env : ModelEnv P G O B Beam) (sd : String)
    (interval : Option Nat) (nP i : Nat) (s : TrainState P O Beam)
    (h : s.err.isSome) : saveCheck2s env sd interval nP i s = s := by
  simp [saveCheck2s, h]

theorem saveCheck2s_none (env : ModelEnv P G O B Beam) (sd : String)
    (nP i : Nat) (s : TrainState P O Beam) (h : s.err = none) :
    saveCheck2s env sd none nP i s = { s with err := some RunError.typeError } := by
  simp [saveCheck2s, h]

theorem saveCheck2s_err (env : ModelEnv P G O B Beam) (sd : String)
    (k nP i : Nat) (s : TrainState P O Beam) (h : s.err = none) (hk : k ≠ 0) :
    (saveCheck2s env sd (some k) nP i s).err = none := by
  by_cases hi : i % k = 0 <;> simp [saveCheck2s, h, hk, hi]

theorem saveCheck2s_po (env : ModelEnv P G O B Beam) (sd : String)
    (interval : Option Nat) (nP i : Nat) (s : TrainState P O Beam) :
    (saveCheck2s env sd interval nP i s).opt = s.opt ∧
    (saveCheck2s env sd interval nP i s).params = s.params := by
  by_cases h : s.err.isSome <;> cases interval with
  | none => simp [saveCheck2s, h]
  | some k =>
    by_cases hk : k = 0 <;> by_cases hi : i % k = 0 <;>
      simp [saveCheck2s, h, hk, hi]

theorem saveCheck2s_steps (env : ModelEnv P G O B Beam) (sd : String)
    (interval : Option Nat) (nP i : Nat) (s : TrainState P O Beam) :
    (saveCheck2s env sd interval nP i s).steps = s.steps := by
  by_cases h : s.err.isSome <;> cases interval with
  | none => simp [saveCheck2s, h]
  | some k =>
    by_cases hk : k = 0 <;> by_cases hi : i % k = 0 <;>
      simp [saveCheck2s, h, hk, hi]

theorem saveCheck2s_lambda (env : ModelEnv P G O B Beam) (sd : String)
    (interval : Option Nat) (nP i : Nat) (s : TrainState P O Beam) :
    (saveCheck2s env sd interval nP i s).lossState.lambda_ = s.lossState.lambda_ := by
  by_cases h : s.err.isSome <;> cases interval with
  | none => simp [saveCheck2s, h]
  | some k =>
    by_cases hk : k = 0 <;> by_cases hi : i % k = 0 <;>
      simp [saveCheck2s, h, hk, hi]

theorem saveCheck2s_trace (env : ModelEnv P G O B Beam) (sd : String)
    (k nP i : Nat) (s : TrainState P O Beam) (h : s.err = none) (hk : k ≠ 0) :
    (saveCheck2s env sd (some k) nP i s).trace = s.trace ++ snapTrace2s k i := by
  by_cases hi : i % k = 0 <;> simp [saveCheck2s, snapTrace2s, h, hk, hi]

theorem saveCheck2s_writes (env : ModelEnv P G O B Beam) (sd : String)
    (k nP i : Nat) (s : TrainState P O Beam) (h : s.err = none) (hk : k ≠ 0) :
    (saveCheck2s env sd (some k) nP i s).writes = s.writes ++
      (if i % k = 0 then [(join2 sd (tmpBeamName i), env.beamOf s.params nP)]
       else []) := by
  by_cases hi : i % k = 0 <;> simp [saveCheck2s, h, hk, hi]

/-! ### Lemmas about the epoch loops -/

theorem poIter_succ (env : ModelEnv P G O B Beam) (batches : List B) (n : Nat)
    (op : O × P) :
    poIter env batches (n + 1) op = batches.foldl (stepPO env) (poIter env batches n op) :=
  rfl

theorem loop1_succ (env : ModelEnv P G O B Beam) (batches : List B)
    (lambda0 : ℚ) (p0 : P) (o0 : O) (n : Nat) :
    loop1 env batches lambda0 p0 o0 (n + 1) =
      coreEpoch env batches n (loop1 env batches lambda0 p0 o0 n) := by
  unfold loop1
  rw [List.range_succ, List.foldl_append]
  rfl

theorem loop1_err (env : ModelEnv P G O B Beam) (batches : List B)
    (lambda0 : ℚ) (p0 : P) (o0 : O) (hb : batches ≠ []) :
    ∀ n, (loop1 env batches lambda0 p0 o0 n).err = none := by
  intro n
  induction n with
  | zero => rfl
  | succ n ih => rw [loop1_succ]; exact coreEpoch_err env batches n _ ih hb

theorem loop1_po (env : ModelEnv P G O B Beam) (batches : List B)
    (lambda0 : ℚ) (p0 : P) (o0 : O) (hb : batches ≠ []) :
    ∀ n, ((loop1 env batches lambda0 p0 o0 n).opt,
          (loop1 env batches lambda0 p0 o0 n).params)
        = poIter env batches n (o0, p0) := by
  intro n
  induction n with
  | zero => rfl
  | succ n ih =>
    rw [loop1_succ,
      coreEpoch_po env batches n _ (loop1_err env batches lambda0 p0 o0 hb n) hb,
      poIter_succ, ← ih]

theorem loop1_steps (env : ModelEnv P G O B Beam) (batches : List B)
    (lambda0 : ℚ) (p0 : P) (o0 : O) (hb : batches ≠ []) :
    ∀ n, (loop1 env batches lambda0 p0 o0 n).steps = n * batches.length := by
  intro n
  induction n with
  | zero => rw [Nat.zero_mul]; rfl
  | succ n ih =>
    rw [loop1_succ,
      coreEpoch_steps env batches n _ (loop1_err env batches lambda0 p0 o0 hb n) hb,
      ih, Nat.succ_mul]

theorem loop1_trace (env : ModelEnv P G O B Beam) (batches : List B)
    (lambda0 : ℚ) (p0 : P) (o0 : O) (hb : batches ≠ []) :
    ∀ n, (loop1 env batches lambda0 p0 o0 n).trace =
      traceUpTo batches.length (fun _ => []) n := by
  intro n
  induction n with
  | zero => rfl
  | succ n ih =>
    rw [loop1_succ,
      coreEpoch_trace env batches n _ (loop1_err env batches lambda0 p0 o0 hb n) hb,
      ih]
    simp [traceUpTo]

theorem loop1_writes (env : ModelEnv P G O B Beam) (batches : List B)
    (lambda0 : ℚ) (p0 : P) (o0 : O) (hb : batches ≠ []) :
    ∀ n, (loop1 env batches lambda0 p0 o0 n).writes = [] := by
  intro n
  induction n with
  | zero => rfl
  | succ n ih =>
    rw [loop1_succ,
      coreEpoch_writes env batches n _ (loop1_err env batches lambda0 p0 o0 hb n) hb,
      ih]

theorem loop1_lambda (env : ModelEnv P G O B Beam) (batches : List B)
    (lambda0 : ℚ) (p0 : P) (o0 : O) :
    ∀ n, (loop1 env batches lambda0 p0 o0 n).lossState.lambda_ = lambda0 := by
  intro n
  induction n with
  | zero => rfl
  | succ n ih => rw [loop1_succ, coreEpoch_lambda, ih]

theorem loop3_succ (env : ModelEnv P G O B Beam) (batches : List B)
    (sd : Option String) (f dN : Nat) (lambda0 : ℚ) (p0 : P) (o0 : O) (n : Nat) :
    loop3 env batches sd f dN lambda0 p0 o0 (n + 1) =
      dumpCheck env sd f dN n
        (coreEpoch env batches n (loop3 env batches sd f dN lambda0 p0 o0 n)) := by
  unfold loop3
  rw [List.range_succ, List.foldl_append]
  rfl

theorem loop3_err (env : ModelEnv P G O B Beam) (batches : List B)
    (sd : Option String) (f dN : Nat) (lambda0 : ℚ) (p0 : P) (o0 : O)
    (hb : batches ≠ []) (hf : f ≠ 0) :
    ∀ n, (loop3 env batches sd f dN lambda0 p0 o0 n).err = none := by
  intro n
  induction n with
  | zero => rfl
  | succ n ih =>
    rw [loop3_succ]
    exact dumpCheck_err env sd f dN n _ (coreEpoch_err env batches n _ ih hb) hf

theorem loop3_po (env : ModelEnv P G O B Beam) (batches : List B)
    (sd : Option String) (f dN : Nat) (lambda0 : ℚ) (p0 : P) (o0 : O)
    (hb : batches ≠ []) (hf : f ≠ 0) :
    ∀ n, ((loop3 env batches sd f dN lambda0 p0 o0 n).opt,
          (loop3 env batches sd f dN lambda0 p0 o0 n).params)
        = poIter env batches n (o0, p0) := by
  intro n
  induction n with
  | zero => rfl
  | succ n ih =>
    rw [loop3_succ, (dumpCheck_po env sd f dN n _).1, (dumpCheck_po env sd f dN n _).2,
      coreEpoch_po env batches n _
        (loop3_err env batches sd f dN lambda0 p0 o0 hb hf n) hb,
      poIter_succ, ← ih]

theorem loop3_steps (env : ModelEnv P G O B Beam) (batches : List B)
    (sd : Option String) (f dN : Nat) (lambda0 : ℚ) (p0 : P) (o0 : O)
    (hb : batches ≠ []) (hf : f ≠ 0) :
    ∀ n, (loop3 env batches sd f dN lambda0 p0 o0 n).steps = n * batches.length := by
  intro n
  induction n with
  | zero => rw [Nat.zero_mul]; rfl
  | succ n ih =>
    rw [loop3_succ, dumpCheck_steps,
      coreEpoch_steps env batches n _
        (loop3_err env batches sd f dN lambda0 p0 o0 hb hf n) hb,
      ih, Nat.succ_mul]

theorem loop3_trace (env : ModelEnv P G O B Beam) (batches : List B)
    (sd : Option String) (f dN : Nat) (lambda0 : ℚ) (p0 : P) (o0 : O)
    (hb : batches ≠ []) (hf : f ≠ 0) :
    ∀ n, (loop3 env batches sd f dN lambda0 p0 o0 n).trace =
      traceUpTo batches.length (snapTrace3 sd f) n := by
  intro n
  induction n with
  | zero => rfl
  | succ n ih =>
    rw [loop3_succ,
      dumpCheck_trace env sd f dN n _
        (coreEpoch_err env batches n _
          (loop3_err env batches sd f dN lambda0 p0 o0 hb hf n) hb) hf,
      coreEpoch_trace env batches n _
        (loop3_err env batches sd f dN lambda0 p0 o0 hb hf n) hb,
      ih]
    simp [traceUpTo, List.append_assoc]

theorem loop3_writes (env : ModelEnv P G O B Beam) (batches : List B)
    (sd : Option String) (f dN : Nat) (lambda0 : ℚ) (p0 : P) (o0 : O)
    (hb : batches ≠ []) (hf : f ≠ 0) :
    ∀ n, (loop3 env batches sd f dN lambda0 p0 o0 n).writes =
      writesUpTo (dumpEntry3 env batches sd f dN o0 p0) n := by
  intro n
  induction n with
  | zero => rfl
  | succ n ih =>
    have herr := loop3_err env batches sd f dN lambda0 p0 o0 hb hf n
    have hcore := coreEpoch_err env batches n _ herr hb
    have hpo := coreEpoch_po env batches n _ herr hb
    rw [loop3_po env batches sd f dN lambda0 p0 o0 hb hf n] at hpo
    have hparams : (coreEpoch env batches n
        (loop3 env batches sd f dN lambda0 p0 o0 n)).params
        = (poIter env batches (n + 1) (o0, p0)).2 := by
      rw [poIter_succ]
      exact congrArg Prod.snd hpo
    rw [loop3_succ, dumpCheck_writes env sd f dN n _ hcore hf,
      coreEpoch_writes env batches n _ herr hb, ih, hparams]
    cases sd <;> simp [writesUpTo, dumpEntry3]

theorem loop3_lambda (env : ModelEnv P G O B Beam) (batches : List B)
    (sd : Option String) (f dN : Nat) (lambda0 : ℚ) (p0 : P) (o0 : O) :
    ∀ n, (loop3 env batches sd f dN lambda0 p0 o0 n).lossState.lambda_ = lambda0 := by
  intro n
  induction n with
  | zero => rfl
  | succ n ih => rw [loop3_succ, dumpCheck_lambda, coreEpoch_lambda, ih]

theorem loop2s_succ (env : ModelEnv P G O B Beam) (batches : List B)
    (sd : String) (interval : Option Nat) (nP : Nat) (lambda0 : ℚ) (p0 : P)
    (o0 : O) (n : Nat) :
    loop2s env batches sd interval nP lambda0 p0 o0 (n + 1) =
      saveCheck2s env sd interval nP n
        (coreEpoch env batches n (loop2s env batches sd interval nP lambda0 p0 o0 n)) := by
  unfold loop2s
  rw [List.range_succ, List.foldl_append]
  rfl

theorem loop2s_err (env : ModelEnv P G O B Beam) (batches : List B)
    (sd : String) (k nP : Nat) (lambda0 : ℚ) (p0 : P) (o0 : O)
    (hb : batches ≠ []) (hk : k ≠ 0) :
    ∀ n, (loop2s env batches sd (some k) nP lambda0 p0 o0 n).err = none := by
  intro n
  induction n with
  | zero => rfl
  | succ n ih =>
    rw [loop2s_succ]
    exact saveCheck2s_err env sd k nP n _ (coreEpoch_err env batches n _ ih hb) hk

theorem loop2s_po (env : ModelEnv P G O B Beam) (batches : List B)
    (sd : String) (k nP : Nat) (lambda0 : ℚ) (p0 : P) (o0 : O)
    (hb : batches ≠ []) (hk : k ≠ 0) :
    ∀ n, ((loop2s env batches sd (some k) nP lambda0 p0 o0 n).opt,
          (loop2s env batches sd (some k) nP lambda0 p0 o0 n).params)
        = poIter env batches n (o0, p0) := by
  intro n
  induction n with
  | zero => rfl
  | succ n ih =>
    rw [loop2s_succ, (saveCheck2s_po env sd (some k) nP n _).1,
      (saveCheck2s_po env sd (some k) nP n _).2,
      coreEpoch_po env batches n _
        (loop2s_err env batches sd k nP lambda0 p0 o0 hb hk n) hb,
      poIter_succ, ← ih]

theorem loop2s_steps (env : ModelEnv P G O B Beam) (batches : List B)
    (sd : String) (k nP : Nat) (lambda0 : ℚ) (p0 : P) (o0 : O)
    (hb : batches ≠ []) (hk : k ≠ 0) :
    ∀ n, (loop2s env batches sd (some k) nP lambda0 p0 o0 n).steps
        = n * batches.length := by
  intro n
  induction n with
  | zero => rw [Nat.zero_mul]; rfl
  | succ n ih =>
    rw [loop2s_succ, saveCheck2s_steps,
      coreEpoch_steps env batches n _
        (loop2s_err env batches sd k nP lambda0 p0 o0 hb hk n) hb,
      ih, Nat.succ_mul]

theorem loop2s_trace (env : ModelEnv P G O B Beam) (batches : List B)
    (sd : String) (k nP : Nat) (lambda0 : ℚ) (p0 : P) (o0 : O)
    (hb : batches ≠ []) (hk : k ≠ 0) :
    ∀ n, (loop2s env batches sd (some k) nP lambda0 p0 o0 n).trace =
      traceUpTo batches.length (snapTrace2s k) n := by
  intro n
  induction n with
  | zero => rfl
  | succ n ih =>
    rw [loop2s_succ,
      saveCheck2s_trace env sd k nP n _
        (coreEpoch_err env batches n _
          (loop2s_err env batches sd k nP lambda0 p0 o0 hb hk n) hb) hk,
      coreEpoch_trace env batches n _
        (loop2s_err env batches sd k nP lambda0 p0 o0 hb hk n) hb,
      ih]
    simp [traceUpTo, List.append_assoc]

theorem loop2s_writes (env : ModelEnv P G O B Beam) (batches : List B)
    (sd : String) (k nP : Nat) (lambda0 : ℚ) (p0 : P) (o0 : O)
    (hb : batches ≠ []) (hk : k ≠ 0) :
    ∀ n, (loop2s env batches sd (some k) nP lambda0 p0 o0 n).writes =
      writesUpTo (dumpEntry2s env batches sd k nP o0 p0) n := by
  intro n
  induction n with
  | zero => rfl
  | succ n ih =>
    have herr := loop2s_err env batches sd k nP lambda0 p0 o0 hb hk n
    have hcore := coreEpoch_err env batches n _ herr hb
    have hpo := coreEpoch_po env batches n _ herr hb
    rw [loop2s_po env batches sd k nP lambda0 p0 o0 hb hk n] at hpo
    have hparams : (coreEpoch env batches n
        (loop2s env batches sd (some k) nP lambda0 p0 o0 n)).params
        = (poIter env batches (n + 1) (o0, p0)).2 := by
      rw [poIter_succ]
      exact congrArg Prod.snd hpo
    rw [loop2s_succ, saveCheck2s_writes env sd k nP n _ hcore hk,
      coreEpoch_writes env batches n _ herr hb, ih, hparams]
    simp [writesUpTo, dumpEntry2s]

theorem loop2s_lambda (env : ModelEnv P G O B Beam) (batches : List B)
    (sd : String) (interval : Option Nat) (nP : Nat) (lambda0 : ℚ) (p0 : P)
    (o0 : O) :
    ∀ n, (loop2s env batches sd interval nP lambda0 p0 o0 n).lossState.lambda_
        = lambda0 := by
  intro n
  induction n with
  | zero => rfl
  | succ n ih => rw [loop2s_succ, saveCheck2s_lambda, coreEpoch_lambda, ih]

/-- The epoch loop of `train_3d_scan_2screens` with the default
`saving_interval=None` aborts with `TypeError` at the end of the first
epoch: the state after any `n ≥ 1` epochs is the state reached at that
abort. -/
theorem loop2s_fail (env : ModelEnv P G O B Beam) (batches : List B)
    (sd : String) (nP : Nat) (lambda0 : ℚ) (p0 : P) (o0 : O)
    (hb : batches ≠ []) :
    ∀ n, 1 ≤ n →
      (loop2s env batches sd none nP lambda0 p0 o0 n).err = some RunError.typeError ∧
      (loop2s env batches sd none nP lambda0 p0 o0 n).trace =
        Event.pass 0 :: List.replicate batches.length (Event.step 0) ∧
      (loop2s env batches sd none nP lambda0 p0 o0 n).writes = [] ∧
      (loop2s env batches sd none nP lambda0 p0 o0 n).steps = batches.length := by
  intro n hn
  induction n with
  | zero => omega
  | succ n ih =>
    cases Nat.eq_zero_or_pos n with
    | inl h0 =>
      subst h0
      have hinit : (initState lambda0 p0 o0 : TrainState P O Beam).err = none := rfl
      have h1 : (loop2s env batches sd none nP lambda0 p0 o0 1) =
          saveCheck2s env sd none nP 0
            (coreEpoch env batches 0 (initState lambda0 p0 o0)) := by
        rw [loop2s_succ]; rfl
      rw [h1, saveCheck2s_none env sd nP 0 _ (coreEpoch_err env batches 0 _ hinit hb)]
      refine ⟨rfl, ?_, ?_, ?_⟩
      · show (coreEpoch env batches 0 (initState lambda0 p0 o0)).trace = _
        rw [coreEpoch_trace env batches 0 _ hinit hb]
        rfl
      · show (coreEpoch env batches 0 (initState lambda0 p0 o0)).writes = _
        rw [coreEpoch_writes env batches 0 _ hinit hb]
        rfl
      · show (coreEpoch env batches 0 (initState lambda0 p0 o0)).steps = _
        rw [coreEpoch_steps env batches 0 _ hinit hb]
        simp [initState]
    | inr hpos =>
      have ihh := ih hpos
      have habs : (loop2s env batches sd none nP lambda0 p0 o0 n).err.isSome := by
        rw [ihh.1]; rfl
      rw [loop2s_succ, coreEpoch_absorb env batches n _ habs,
        saveCheck2s_absorb env sd none nP n _ habs]
      exact ihh

/-! ### Counting passes in a trace -/

theorem passCount_append (t1 t2 : List Event) :
    passCount (t1 ++ t2) = passCount t1 + passCount t2 := by
  simp [passCount, List.countP_append]

theorem passCount_pass (i : Nat) : passCount [Event.pass i] = 1 := rfl

theorem passCount_replicate_step (L i : Nat) :
    passCount (List.replicate L (Event.step i)) = 0 := by
  induction L with
  | zero => rfl
  | succ L ih => rw [List.replicate_succ]; simp [passCount, List.countP_cons] at ih ⊢

theorem passCount_snapTrace3 (sd : Option String) (f i : Nat) :
    passCount (snapTrace3 sd f i) = 0 := by
  cases sd <;> by_cases hi : i % f = 0 <;> simp [snapTrace3, hi, passCount]

theorem passCount_snapTrace2s (k i : Nat) :
    passCount (snapTrace2s k i) = 0 := by
  by_cases hi : i % k = 0 <;> simp [snapTrace2s, hi, passCount]

theorem passCount_traceUpTo (L : Nat) (extra : Nat → List Event)
    (hx : ∀ i, passCount (extra i) = 0) :
    ∀ n, passCount (traceUpTo L extra n) = n := by
  intro n
  induction n with
  | zero => rfl
  | succ n ih =>
    rw [traceUpTo, passCount_append, passCount_append, passCount_append,
      passCount_pass, passCount_replicate_step, hx, ih]

/-! ### Membership in the accumulated writes -/

theorem writesUpTo_mem (entry : Nat → List (List String × Beam)) :
    ∀ (n : Nat) (w : List String × Beam), w ∈ writesUpTo entry n →
      ∃ i, i < n ∧ w ∈ entry i := by
  intro n
  induction n with
  | zero => intro w hw; cases hw
  | succ n ih =>
    intro w hw
    rw [writesUpTo] at hw
    rcases List.mem_append.mp hw with h | h
    · obtain ⟨i, hi, hmem⟩ := ih w h
      exact ⟨i, Nat.lt_succ_of_lt hi, hmem⟩
    · exact ⟨n, Nat.lt_succ_self n, h⟩

/-! ### Driver-level characterizations -/

theorem train_1d_scan_run (env : ModelEnv P G O B Beam) (batches : List B)
    (n : Nat) (save_as : Option String) (lambda0 : ℚ) (p0 : P) (o0 : O)
    (nPart : Nat) (hb : batches ≠ []) :
    train_1d_scan env batches n save_as lambda0 p0 o0 nPart =
      ({ loop1 env batches lambda0 p0 o0 n with
         writes := (loop1 env batches lambda0 p0 o0 n).writes ++
           (match save_as with
            | some pth =>
              [([pth], env.beamOf (loop1 env batches lambda0 p0 o0 n).params nPart)]
            | none => []) },
       some (env.beamOf (loop1 env batches lambda0 p0 o0 n).params nPart)) := by
  have herr := loop1_err env batches lambda0 p0 o0 hb n
  simp [train_1d_scan, herr]

theorem train_3d_scan_run (env : ModelEnv P G O B Beam) (batches : List B)
    (n : Nat) (sd : Option String) (f dumpN : Nat) (lambda0 : ℚ) (p0 : P)
    (o0 : O) (nPart : Nat) (hb : batches ≠ []) (hf : f ≠ 0) :
    train_3d_scan env batches n sd f dumpN lambda0 p0 o0 nPart =
      ({ loop3 env batches sd f dumpN lambda0 p0 o0 (n + 1) with
         writes := (loop3 env batches sd f dumpN lambda0 p0 o0 (n + 1)).writes ++
           (match sd with
            | some _ =>
              [(["3d_scan_result.pt"],
                env.beamOf (loop3 env batches sd f dumpN lambda0 p0 o0 (n + 1)).params nPart)]
            | none => []) },
       some (env.beamOf (loop3 env batches sd f dumpN lambda0 p0 o0 (n + 1)).params nPart,
         (loop3 env batches sd f dumpN lambda0 p0 o0 (n + 1)).params)) := by
  have herr := loop3_err env batches sd f dumpN lambda0 p0 o0 hb hf (n + 1)
  simp [train_3d_scan, herr]

theorem train_2s_run (env : ModelEnv P G O B Beam) (batches : List B)
    (n : Nat) (save_as : Option String) (sd2 : String) (k : Nat)
    (lambda0 : ℚ) (p0 : P) (o0 : O) (nPart : Nat) (hb : batches ≠ [])
    (hk : k ≠ 0) :
    train_3d_scan_2screens env batches n save_as sd2 (some k) lambda0 p0 o0 nPart =
      ({ loop2s env batches sd2 (some k) nPart lambda0 p0 o0 n with
         writes := (loop2s env batches sd2 (some k) nPart lambda0 p0 o0 n).writes ++
           (match save_as with
            | some pth =>
              [(join2 sd2 pth,
                env.beamOf (loop2s env batches sd2 (some k) nPart lambda0 p0 o0 n).params nPart)]
            | none => []) },
       some (env.beamOf (loop2s env batches sd2 (some k) nPart lambda0 p0 o0 n).params nPart)) := by
  have herr := loop2s_err env batches sd2 k nPart lambda0 p0 o0 hb hk n
  simp [train_3d_scan_2screens, herr]

theorem train_2s_fail_run (env : ModelEnv P G O B Beam) (batches : List B)
    (n : Nat) (save_as : Option String) (sd2 : String) (lambda0 : ℚ) (p0 : P)
    (o0 : O) (nPart : Nat) (hb : batches ≠ []) (hn : 1 ≤ n) :
    train_3d_scan_2screens env batches n save_as sd2 none lambda0 p0 o0 nPart =
      (loop2s env batches sd2 none nPart lambda0 p0 o0 n, none) := by
  have herr := (loop2s_fail env batches sd2 nPart lambda0 p0 o0 hb n hn).1
  simp [train_3d_scan_2screens, herr]

theorem train_1d_scan_lambda (env : ModelEnv P G O B Beam) (batches : List B)
    (n : Nat) (save_as : Option String) (lambda0 : ℚ) (p0 : P) (o0 : O)
    (nPart : Nat) :
    (train_1d_scan env batches n save_as lambda0 p0 o0 nPart).1.lossState.lambda_
      = lambda0 := by
  unfold train_1d_scan
  by_cases h : (loop1 env batches lambda0 p0 o0 n).err.isSome <;>
    simp [h, loop1_lambda]

theorem train_3d_scan_lambda (env : ModelEnv P G O B Beam) (batches : List B)
    (n : Nat) (sd : Option String) (f dumpN : Nat) (lambda0 : ℚ) (p0 : P)
    (o0 : O) (nPart : Nat) :
    (train_3d_scan env batches n sd f dumpN lambda0 p0 o0 nPart).1.lossState.lambda_
      = lambda0 := by
  unfold train_3d_scan
  by_cases h : (loop3 env batches sd f dumpN lambda0 p0 o0 (n + 1)).err.isSome <;>
    simp [h, loop3_lambda]

theorem train_2s_lambda (env : ModelEnv P G O B Beam) (batches : List B)
    (n : Nat) (save_as : Option String) (sd2 : String) (interval : Option Nat)
    (lambda0 : ℚ) (p0 : P) (o0 : O) (nPart : Nat) :
    (train_3d_scan_2screens env batches n save_as sd2 interval lambda0 p0 o0
      nPart).1.lossState.lambda_ = lambda0 := by
  unfold train_3d_scan_2screens
  by_cases h : (loop2s env batches sd2 interval nPart lambda0 p0 o0 n).err.isSome <;>
    simp [h, loop2s_lambda]

/-! ### Theorems about the training drivers -/

/-- Claim C5, counterexample: `train_3d_scan` run with `n_epochs = 1`
performs 2 passes over the dataloader (its loop is `range(n_epochs + 1)`),
refuting the claim that every driver performs exactly `n_epochs` passes. -/
theorem C5_counterexample_extra_epoch_pass :
    passCount ((train_3d_scan envU [()] 1 (some "out") 1 5 1 () () 3).1.trace) = 2 ∧
    (2 : Nat) ≠ 1 := by
  constructor
  · rfl
  · decide

/-- Claim C5, amended: for every driver with a `range(n_epochs)` loop
(`train_1d_scan`, `train_1d_scan_sext`, `train_1d_scan_multi_gpu`,
`train_3d_scan_parallel_gpus`, `train_3d_scan_2screens`) the epoch loop
performs exactly `n_epochs` passes over the training dataloader, each pass
doing one forward/loss/backward/optimizer-step per mini-batch, before
entering the terminal phase; `train_3d_scan` alone loops
`range(n_epochs + 1)` and performs `n_epochs + 1` passes. -/
theorem C5_amended_epoch_pass_counts (env : ModelEnv P G O B Beam)
    (batches : List B) (n : Nat) (save_as : Option String) (sd : Option String)
    (sd2 : String) (save_as2 : Option String) (f dumpN k : Nat) (lambda0 : ℚ)
    (p0 : P) (o0 : O) (nPart : Nat) (hb : batches ≠ []) (hf : f ≠ 0)
    (hk : k ≠ 0) :
    passCount (train_1d_scan env batches n save_as lambda0 p0 o0 nPart).1.trace = n ∧
    passCount (train_1d_scan_sext env batches n save_as lambda0 p0 o0 nPart).1.trace = n ∧
    passCount (train_1d_scan_multi_gpu env batches n save_as lambda0 p0 o0 nPart).1.trace = n ∧
    passCount (train_3d_scan_parallel_gpus env batches n save_as lambda0 p0 o0 nPart).1.trace = n ∧
    passCount (train_3d_scan_2screens env batches n save_as2 sd2 (some k) lambda0 p0 o0 nPart).1.trace = n ∧
    passCount (train_3d_scan env batches n sd f dumpN lambda0 p0 o0 nPart).1.trace = n + 1 ∧
    (train_1d_scan env batches n save_as lambda0 p0 o0 nPart).1.steps = n * batches.length ∧
    (train_3d_scan env batches n sd f dumpN lambda0 p0 o0 nPart).1.steps = (n + 1) * batches.length := by
  have h1 : passCount (train_1d_scan env batches n save_as lambda0 p0 o0 nPart).1.trace = n := by
    rw [train_1d_scan_run env batches n save_as lambda0 p0 o0 nPart hb]
    show passCount (loop1 env batches lambda0 p0 o0 n).trace = n
    rw [loop1_trace env batches lambda0 p0 o0 hb n]
    exact passCount_traceUpTo batches.length (fun _ => []) (fun _ => rfl) n
  have h2s : passCount (train_3d_scan_2screens env batches n save_as2 sd2 (some k)
      lambda0 p0 o0 nPart).1.trace = n := by
    rw [train_2s_run env batches n save_as2 sd2 k lambda0 p0 o0 nPart hb hk]
    show passCount (loop2s env batches sd2 (some k) nPart lambda0 p0 o0 n).trace = n
    rw [loop2s_trace env batches sd2 k nPart lambda0 p0 o0 hb hk n]
    exact passCount_traceUpTo _ _ (passCount_snapTrace2s k) n
  have h3 : passCount (train_3d_scan env batches n sd f dumpN lambda0 p0 o0
      nPart).1.trace = n + 1 := by
    rw [train_3d_scan_run env batches n sd f dumpN lambda0 p0 o0 nPart hb hf]
    show passCount (loop3 env batches sd f dumpN lambda0 p0 o0 (n + 1)).trace = n + 1
    rw [loop3_trace env batches sd f dumpN lambda0 p0 o0 hb hf (n + 1)]
    exact passCount_traceUpTo _ _ (passCount_snapTrace3 sd f) (n + 1)
  have hs1 : (train_1d_scan env batches n save_as lambda0 p0 o0 nPart).1.steps
      = n * batches.length := by
    rw [train_1d_scan_run env batches n save_as lambda0 p0 o0 nPart hb]
    show (loop1 env batches lambda0 p0 o0 n).steps = n * batches.length
    exact loop1_steps env batches lambda0 p0 o0 hb n
  have hs3 : (train_3d_scan env batches n sd f dumpN lambda0 p0 o0 nPart).1.steps
      = (n + 1) * batches.length := by
    rw [train_3d_scan_run env batches n sd f dumpN lambda0 p0 o0 nPart hb hf]
    show (loop3 env batches sd f dumpN lambda0 p0 o0 (n + 1)).steps = (n + 1) * batches.length
    exact loop3_steps env batches sd f dumpN lambda0 p0 o0 hb hf (n + 1)
  exact ⟨h1, h1, h1, h1, h2s, h3, hs1, hs3⟩

/-- Witness for the amended C5 at a concrete run. -/
theorem C5_amended_epoch_pass_counts_witness :
    (([()] : List Unit) ≠ [] ∧ (1 : Nat) ≠ 0 ∧ (1 : Nat) ≠ 0) ∧
    (passCount (train_1d_scan envU [()] 1 none 1 () () 3).1.trace = 1 ∧
     passCount (train_1d_scan_sext envU [()] 1 none 1 () () 3).1.trace = 1 ∧
     passCount (train_1d_scan_multi_gpu envU [()] 1 none 1 () () 3).1.trace = 1 ∧
     passCount (train_3d_scan_parallel_gpus envU [()] 1 none 1 () () 3).1.trace = 1 ∧
     passCount (train_3d_scan_2screens envU [()] 1 none "" (some 1) 1 () () 3).1.trace = 1 ∧
     passCount (train_3d_scan envU [()] 1 none 1 5 1 () () 3).1.trace = 1 + 1 ∧
     (train_1d_scan envU [()] 1 none 1 () () 3).1.steps = 1 * ([()] : List Unit).length ∧
     (train_3d_scan envU [()] 1 none 1 5 1 () () 3).1.steps = (1 + 1) * ([()] : List Unit).length) :=
  ⟨⟨by decide, by decide, by decide⟩,
   C5_amended_epoch_pass_counts envU [()] 1 none none "" none 1 5 1 1 () () 3
     (by decide) (by decide) (by decide)⟩

/-- Claim C6, counterexample: a `train_3d_scan` run with `save_dir = "out"`
writes the intermediate dump under `out` but writes the final beam to the
fixed working-directory path `3d_scan_result.pt`, which is not under the
configured directory. -/
theorem C6_counterexample_final_beam_path :
    ((train_3d_scan envU [()] 0 (some "out") 1 5 1 () () 3).1.writes).map Prod.fst
      = [["out", "dist_0.pt"], ["3d_scan_result.pt"]] ∧
    (["3d_scan_result.pt"] : List String).head? ≠ some "out" := by
  constructor
  · rfl
  · decide

/-- Claim C6, amended: with persistence requested, `train_1d_scan` writes
exactly the final beam to the configured `save_as` path, and `train_3d_scan`
writes every intermediate distribution dump under `save_dir` with the
iteration index embedded in the name (`dist_{i}.pt`) — but its final beam
goes to the fixed path `3d_scan_result.pt` in the working directory, not
under `save_dir`. -/
theorem C6_amended_persistence_paths (env : ModelEnv P G O B Beam)
    (batches : List B) (n : Nat) (pth d : String) (f dumpN : Nat)
    (lambda0 : ℚ) (p0 : P) (o0 : O) (nPart : Nat) (hb : batches ≠ [])
    (hf : f ≠ 0) :
    (train_1d_scan env batches n (some pth) lambda0 p0 o0 nPart).1.writes =
      [([pth], env.beamOf (poIter env batches n (o0, p0)).2 nPart)] ∧
    (train_3d_scan env batches n (some d) f dumpN lambda0 p0 o0 nPart).1.writes =
      writesUpTo (dumpEntry3 env batches (some d) f dumpN o0 p0) (n + 1) ++
        [(["3d_scan_result.pt"], env.beamOf (poIter env batches (n + 1) (o0, p0)).2 nPart)] ∧
    (∀ w ∈ writesUpTo (dumpEntry3 env batches (some d) f dumpN o0 p0) (n + 1),
      ∃ i, w.1 = [d, distName i]) := by
  refine ⟨?_, ?_, ?_⟩
  · rw [train_1d_scan_run env batches n (some pth) lambda0 p0 o0 nPart hb]
    have hparams : (loop1 env batches lambda0 p0 o0 n).params
        = (poIter env batches n (o0, p0)).2 :=
      congrArg Prod.snd (loop1_po env batches lambda0 p0 o0 hb n)
    show (loop1 env batches lambda0 p0 o0 n).writes ++ _ = _
    rw [loop1_writes env batches lambda0 p0 o0 hb n, hparams]
    rfl
  · rw [train_3d_scan_run env batches n (some d) f dumpN lambda0 p0 o0 nPart hb hf]
    have hparams : (loop3 env batches (some d) f dumpN lambda0 p0 o0 (n + 1)).params
        = (poIter env batches (n + 1) (o0, p0)).2 :=
      congrArg Prod.snd (loop3_po env batches (some d) f dumpN lambda0 p0 o0 hb hf (n + 1))
    show (loop3 env batches (some d) f dumpN lambda0 p0 o0 (n + 1)).writes ++ _ = _
    rw [loop3_writes env batches (some d) f dumpN lambda0 p0 o0 hb hf (n + 1), hparams]
  · intro w hw
    obtain ⟨i, _, hmem⟩ := writesUpTo_mem _ (n + 1) w hw
    by_cases hi : i % f = 0
    · refine ⟨i, ?_⟩
      simp [dumpEntry3, hi] at hmem
      rw [hmem]
    · simp [dumpEntry3, hi] at hmem

/-- Witness for the amended C6 at a concrete run. -/
theorem C6_amended_persistence_paths_witness :
    (([()] : List Unit) ≠ [] ∧ (1 : Nat) ≠ 0) ∧
    ((train_1d_scan envU [()] 2 (some "beam.pt") 1 () () 3).1.writes =
      [(["beam.pt"], envU.beamOf (poIter envU [()] 2 ((), ())).2 3)] ∧
     (train_3d_scan envU [()] 2 (some "out") 1 5 1 () () 3).1.writes =
      writesUpTo (dumpEntry3 envU [()] (some "out") 1 5 () ()) (2 + 1) ++
        [(["3d_scan_result.pt"], envU.beamOf (poIter envU [()] (2 + 1) ((), ())).2 3)] ∧
     (∀ w ∈ writesUpTo (dumpEntry3 envU [()] (some "out") 1 5 () ()) (2 + 1),
      ∃ i, w.1 = ["out", distName i])) :=
  ⟨⟨by decide, by decide⟩,
   C6_amended_persistence_paths envU [()] 2 "beam.pt" "out" 1 5 1 () () 3
     (by decide) (by decide)⟩

/-- Claim C7: periodic checkpoint snapshots are taken only at epoch
boundaries, between optimizer steps (the trace of a run is exactly, per
epoch: the pass event, the epoch's optimizer steps, then the epoch's
snapshot), each snapshot of `train_3d_scan` is the beam of an independent
copy of the parameters reached after that epoch re-sampled at the snapshot
particle count `dumpN`, its content is a function of the first `i + 1`
epochs only, and it appears unchanged in the final write list after all
later optimizer steps (`train_3d_scan_2screens` analogously, at the run's
particle count). -/
theorem C7_snapshot_ordering_and_content (env : ModelEnv P G O B Beam)
    (batches : List B) (n : Nat) (d sd2 : String) (f dumpN k : Nat)
    (lambda0 : ℚ) (p0 : P) (o0 : O) (nPart : Nat) (hb : batches ≠ [])
    (hf : f ≠ 0) (hk : k ≠ 0) :
    (train_3d_scan env batches n (some d) f dumpN lambda0 p0 o0 nPart).1.trace =
      traceUpTo batches.length (snapTrace3 (some d) f) (n + 1) ∧
    (train_3d_scan env batches n (some d) f dumpN lambda0 p0 o0 nPart).1.writes =
      writesUpTo (dumpEntry3 env batches (some d) f dumpN o0 p0) (n + 1) ++
        [(["3d_scan_result.pt"], env.beamOf (poIter env batches (n + 1) (o0, p0)).2 nPart)] ∧
    (∀ i, i % f = 0 → dumpEntry3 env batches (some d) f dumpN o0 p0 i =
      [([d, distName i], env.beamOf (poIter env batches (i + 1) (o0, p0)).2 dumpN)]) ∧
    (train_3d_scan_2screens env batches n none sd2 (some k) lambda0 p0 o0 nPart).1.trace =
      traceUpTo batches.length (snapTrace2s k) n ∧
    (train_3d_scan_2screens env batches n none sd2 (some k) lambda0 p0 o0 nPart).1.writes =
      writesUpTo (dumpEntry2s env batches sd2 k nPart o0 p0) n ∧
    (∀ i, i % k = 0 → dumpEntry2s env batches sd2 k nPart o0 p0 i =
      [(join2 sd2 (tmpBeamName i),
        env.beamOf (poIter env batches (i + 1) (o0, p0)).2 nPart)]) := by
  refine ⟨?_, ?_, ?_, ?_, ?_, ?_⟩
  · rw [train_3d_scan_run env batches n (some d) f dumpN lambda0 p0 o0 nPart hb hf]
    show (loop3 env batches (some d) f dumpN lambda0 p0 o0 (n + 1)).trace = _
    exact loop3_trace env batches (some d) f dumpN lambda0 p0 o0 hb hf (n + 1)
  · rw [train_3d_scan_run env batches n (some d) f dumpN lambda0 p0 o0 nPart hb hf]
    have hparams : (loop3 env batches (some d) f dumpN lambda0 p0 o0 (n + 1)).params
        = (poIter env batches (n + 1) (o0, p0)).2 :=
      congrArg Prod.snd (loop3_po env batches (some d) f dumpN lambda0 p0 o0 hb hf (n + 1))
    show (loop3 env batches (some d) f dumpN lambda0 p0 o0 (n + 1)).writes ++ _ = _
    rw [loop3_writes env batches (some d) f dumpN lambda0 p0 o0 hb hf (n + 1), hparams]
  · intro i hi
    simp [dumpEntry3, hi]
  · rw [train_2s_run env batches n none sd2 k lambda0 p0 o0 nPart hb hk]
    show (loop2s env batches sd2 (some k) nPart lambda0 p0 o0 n).trace = _
    exact loop2s_trace env batches sd2 k nPart lambda0 p0 o0 hb hk n
  · rw [train_2s_run env batches n none sd2 k lambda0 p0 o0 nPart hb hk]
    show (loop2s env batches sd2 (some k) nPart lambda0 p0 o0 n).writes ++ _ = _
    rw [loop2s_writes env batches sd2 k nPart lambda0 p0 o0 hb hk n]
    simp
  · intro i hi
    simp [dumpEntry2s, hi]

/-- Witness for C7 at a concrete run. -/
theorem C7_snapshot_ordering_and_content_witness :
    (([()] : List Unit) ≠ [] ∧ (1 : Nat) ≠ 0 ∧ (1 : Nat) ≠ 0) ∧
    ((train_3d_scan envU [()] 1 (some "out") 1 5 1 () () 3).1.trace =
      traceUpTo ([()] : List Unit).length (snapTrace3 (some "out") 1) (1 + 1) ∧
     (train_3d_scan envU [()] 1 (some "out") 1 5 1 () () 3).1.writes =
      writesUpTo (dumpEntry3 envU [()] (some "out") 1 5 () ()) (1 + 1) ++
        [(["3d_scan_result.pt"], envU.beamOf (poIter envU [()] (1 + 1) ((), ())).2 3)] ∧
     (∀ i, i % 1 = 0 → dumpEntry3 envU [()] (some "out") 1 5 () () i =
      [(["out", distName i], envU.beamOf (poIter envU [()] (i + 1) ((), ())).2 5)]) ∧
     (train_3d_scan_2screens envU [()] 1 none "" (some 1) 1 () () 3).1.trace =
      traceUpTo ([()] : List Unit).length (snapTrace2s 1) 1 ∧
     (train_3d_scan_2screens envU [()] 1 none "" (some 1) 1 () () 3).1.writes =
      writesUpTo (dumpEntry2s envU [()] "" 1 3 () ()) 1 ∧
     (∀ i, i % 1 = 0 → dumpEntry2s envU [()] "" 1 3 () () i =
      [(join2 "" (tmpBeamName i), envU.beamOf (poIter envU [()] (i + 1) ((), ())).2 3)])) :=
  ⟨⟨by decide, by decide, by decide⟩,
   C7_snapshot_ordering_and_content envU [()] 1 "out" "" 1 5 1 1 () () 3
     (by decide) (by decide) (by decide)⟩

/-- Claim C8: the mini-batch body shared by every training driver performs
exactly one optimizer step per mini-batch, unconditionally: it increments
the step count by one and replaces the parameters by the optimizer update,
with no guard on whether the computed loss is finite — in particular a
non-finite loss still updates the parameters; over a whole run the number
of optimizer steps is the number of passes times the number of
mini-batches. -/
theorem C8_unconditional_optimizer_step (env : ModelEnv P G O B Beam)
    (i : Nat) (s : TrainState P O Beam) (b : B) (batches : List B) (n : Nat)
    (save_as : Option String) (sd : Option String) (f dumpN : Nat)
    (lambda0 : ℚ) (p0 : P) (o0 : O) (nPart : Nat) (h : s.err = none)
    (hb : batches ≠ []) (hf : f ≠ 0) :
    (batchBody env i s b).steps = s.steps + 1 ∧
    (batchBody env i s b).opt = (stepPO env (s.opt, s.params) b).1 ∧
    (batchBody env i s b).params = (stepPO env (s.opt, s.params) b).2 ∧
    ((MENTLoss.forward s.lossState (env.outFn s.params b).1
        (env.outFn s.params b).2.1 (env.outFn s.params b).2.2).2 = FloatVal.nonfinite →
      (batchBody env i s b).params = (stepPO env (s.opt, s.params) b).2 ∧
      (batchBody env i s b).steps = s.steps + 1) ∧
    (train_1d_scan env batches n save_as lambda0 p0 o0 nPart).1.steps = n * batches.length ∧
    (train_3d_scan env batches n sd f dumpN lambda0 p0 o0 nPart).1.steps = (n + 1) * batches.length := by
  have hB := batchBody_eq env i s b h
  refine ⟨by rw [hB], by rw [hB], by rw [hB], fun _ => ⟨by rw [hB], by rw [hB]⟩, ?_, ?_⟩
  · rw [train_1d_scan_run env batches n save_as lambda0 p0 o0 nPart hb]
    show (loop1 env batches lambda0 p0 o0 n).steps = n * batches.length
    exact loop1_steps env batches lambda0 p0 o0 hb n
  · rw [train_3d_scan_run env batches n sd f dumpN lambda0 p0 o0 nPart hb hf]
    show (loop3 env batches sd f dumpN lambda0 p0 o0 (n + 1)).steps = (n + 1) * batches.length
    exact loop3_steps env batches sd f dumpN lambda0 p0 o0 hb hf (n + 1)

/-- Witness for C8 at a concrete state whose forward pass yields a
non-finite loss: the optimizer step is taken anyway. -/
theorem C8_unconditional_optimizer_step_witness :
    ((initState 1 (0 : Nat) () : TrainState Nat Unit Unit).err = none ∧
     ([()] : List Unit) ≠ [] ∧ (1 : Nat) ≠ 0) ∧
    ((batchBody envNF 0 (initState 1 (0 : Nat) ()) ()).steps =
        (initState 1 (0 : Nat) () : TrainState Nat Unit Unit).steps + 1 ∧
     (batchBody envNF 0 (initState 1 (0 : Nat) ()) ()).opt =
        (stepPO envNF ((initState 1 (0 : Nat) () : TrainState Nat Unit Unit).opt,
          (initState 1 (0 : Nat) () : TrainState Nat Unit Unit).params) ()).1 ∧
     (batchBody envNF 0 (initState 1 (0 : Nat) ()) ()).params =
        (stepPO envNF ((initState 1 (0 : Nat) () : TrainState Nat Unit Unit).opt,
          (initState 1 (0 : Nat) () : TrainState Nat Unit Unit).params) ()).2 ∧
     ((MENTLoss.forward (initState 1 (0 : Nat) () : TrainState Nat Unit Unit).lossState
          (envNF.outFn (initState 1 (0 : Nat) () : TrainState Nat Unit Unit).params ()).1
          (envNF.outFn (initState 1 (0 : Nat) () : TrainState Nat Unit Unit).params ()).2.1
          (envNF.outFn (initState 1 (0 : Nat) () : TrainState Nat Unit Unit).params ()).2.2).2
          = FloatVal.nonfinite →
       (batchBody envNF 0 (initState 1 (0 : Nat) ()) ()).params =
          (stepPO envNF ((initState 1 (0 : Nat) () : TrainState Nat Unit Unit).opt,
            (initState 1 (0 : Nat) () : TrainState Nat Unit Unit).params) ()).2 ∧
       (batchBody envNF 0 (initState 1 (0 : Nat) ()) ()).steps =
          (initState 1 (0 : Nat) () : TrainState Nat Unit Unit).steps + 1) ∧
     (train_1d_scan envNF [()] 2 none 1 0 () 3).1.steps = 2 * ([()] : List Unit).length ∧
     (train_3d_scan envNF [()] 2 none 1 5 1 0 () 3).1.steps = (2 + 1) * ([()] : List Unit).length) :=
  ⟨⟨rfl, by decide, by decide⟩,
   C8_unconditional_optimizer_step envNF 0 (initState 1 (0 : Nat) ()) () [()] 2
     none none 1 5 1 0 () 3 rfl (by decide) (by decide)⟩

/-- Claim C9: λ is held by the loss object and excluded from the
optimizer's parameter set, so it is unchanged by every optimizer step and
throughout every driver run; when the initial λ is strictly positive it
remains strictly positive after every step. -/
theorem C9_lambda_fixed_and_positive (env : ModelEnv P G O B Beam)
    (batches : List B) (n : Nat) (save_as : Option String) (sd : Option String)
    (f dumpN : Nat) (save_as2 : Option String) (sd2 : String)
    (interval : Option Nat) (lambda0 : ℚ) (p0 : P) (o0 : O) (nPart : Nat)
    (hl : 0 < lambda0) :
    (∀ (i : Nat) (s : TrainState P O Beam) (b : B),
      (batchBody env i s b).lossState.lambda_ = s.lossState.lambda_) ∧
    (∀ m : Nat, (loop1 env batches lambda0 p0 o0 m).lossState.lambda_ = lambda0) ∧
    (train_1d_scan env batches n save_as lambda0 p0 o0 nPart).1.lossState.lambda_ = lambda0 ∧
    (train_3d_scan env batches n sd f dumpN lambda0 p0 o0 nPart).1.lossState.lambda_ = lambda0 ∧
    (train_3d_scan_2screens env batches n save_as2 sd2 interval lambda0 p0 o0 nPart).1.lossState.lambda_ = lambda0 ∧
    0 < (train_1d_scan env batches n save_as lambda0 p0 o0 nPart).1.lossState.lambda_ ∧
    0 < (train_3d_scan env batches n sd f dumpN lambda0 p0 o0 nPart).1.lossState.lambda_ := by
  refine ⟨fun i s b => batchBody_lambda env i s b,
    loop1_lambda env batches lambda0 p0 o0,
    train_1d_scan_lambda env batches n save_as lambda0 p0 o0 nPart,
    train_3d_scan_lambda env batches n sd f dumpN lambda0 p0 o0 nPart,
    train_2s_lambda env batches n save_as2 sd2 interval lambda0 p0 o0 nPart,
    ?_, ?_⟩
  · rw [train_1d_scan_lambda env batches n save_as lambda0 p0 o0 nPart]
    exact hl
  · rw [train_3d_scan_lambda env batches n sd f dumpN lambda0 p0 o0 nPart]
    exact hl

/-- Witness for C9 at a concrete run. -/
theorem C9_lambda_fixed_and_positive_witness :
    (0 : ℚ) < 100 ∧
    ((∀ (i : Nat) (s : TrainState Unit Unit Unit) (b : Unit),
      (batchBody envU i s b).lossState.lambda_ = s.lossState.lambda_) ∧
     (∀ m : Nat, (loop1 envU [()] 100 () () m).lossState.lambda_ = 100) ∧
     (train_1d_scan envU [()] 2 none 100 () () 3).1.lossState.lambda_ = 100 ∧
     (train_3d_scan envU [()] 2 none 1 5 100 () () 3).1.lossState.lambda_ = 100 ∧
     (train_3d_scan_2screens envU [()] 2 none "" none 100 () () 3).1.lossState.lambda_ = 100 ∧
     0 < (train_1d_scan envU [()] 2 none 100 () () 3).1.lossState.lambda_ ∧
     0 < (train_3d_scan envU [()] 2 none 1 5 100 () () 3).1.lossState.lambda_) :=
  ⟨by norm_num,
   C9_lambda_fixed_and_positive envU [()] 2 none none 1 5 none "" none 100 () () 3
     (by norm_num)⟩

/-- Claim C10, counterexample: a call of `train_3d_scan_2screens` leaving
`saving_interval` at its default `None` but with `n_epochs = 0` skips the
epoch loop entirely, never evaluates `i % None`, reaches the terminal phase
and returns a beam — refuting the claim that every such call raises a
`TypeError`. -/
theorem C10_counterexample_zero_epochs :
    (train_3d_scan_2screens envU [()] 0 none "" none 1 () () 3).2 = some () ∧
    (train_3d_scan_2screens envU [()] 0 none "" none 1 () () 3).1.err = none :=
  ⟨rfl, rfl⟩

/-- Claim C10, amended: every call of `train_3d_scan_2screens` leaving
`saving_interval` at its default `None`, with `n_epochs ≥ 1` and a
non-empty dataloader, raises `TypeError` at the end of the first epoch
(after that epoch's optimizer steps, with nothing written), never reaches
the terminal phase and returns no beam; with `n_epochs = 0` the loop is
skipped and a beam is returned. -/
theorem C10_amended_default_interval_type_error (env : ModelEnv P G O B Beam)
    (batches : List B) (n : Nat) (save_as : Option String) (sd2 : String)
    (lambda0 : ℚ) (p0 : P) (o0 : O) (nPart : Nat) (hn : 1 ≤ n)
    (hb : batches ≠ []) :
    (train_3d_scan_2screens env batches n save_as sd2 none lambda0 p0 o0 nPart).1.err
      = some RunError.typeError ∧
    (train_3d_scan_2screens env batches n save_as sd2 none lambda0 p0 o0 nPart).2 = none ∧
    (train_3d_scan_2screens env batches n save_as sd2 none lambda0 p0 o0 nPart).1.trace
      = Event.pass 0 :: List.replicate batches.length (Event.step 0) ∧
    (train_3d_scan_2screens env batches n save_as sd2 none lambda0 p0 o0 nPart).1.writes
      = [] := by
  have hfail := loop2s_fail env batches sd2 nPart lambda0 p0 o0 hb n hn
  rw [train_2s_fail_run env batches n save_as sd2 lambda0 p0 o0 nPart hb hn]
  exact ⟨hfail.1, rfl, hfail.2.1, hfail.2.2.1⟩

/-- Witness for the amended C10 at a concrete run. -/
theorem C10_amended_default_interval_type_error_witness :
    ((1 : Nat) ≤ 2 ∧ ([()] : List Unit) ≠ []) ∧
    ((train_3d_scan_2screens envU [()] 2 none "" none 1 () () 3).1.err
        = some RunError.typeError ∧
     (train_3d_scan_2screens envU [()] 2 none "" none 1 () () 3).2 = none ∧
     (train_3d_scan_2screens envU [()] 2 none "" none 1 () () 3).1.trace
        = Event.pass 0 :: List.replicate ([()] : List Unit).length (Event.step 0) ∧
     (train_3d_scan_2screens envU [()] 2 none "" none 1 () () 3).1.writes = []) :=
  ⟨⟨by decide, by decide⟩,
   C10_amended_default_interval_type_error envU [()] 2 none "" 1 () () 3
     (by decide) (by decide)⟩

end GPSR
